import Mathlib

/-!
Verification of the agent loop and tool registry of the MCP-with-Kubernetes
repository (files `ai/agent.py` and `mcp/server.py`), as a shallow embedding.

Modelling conventions:
* Python/JSON values are modelled by the inductive `JVal`.  JSON numbers are
  modelled as exact decimals `m / 10^e` (floats are not otherwise relevant to
  any claim under scrutiny).
* Python strings are Lean `String`s; `str.strip()` is modelled over the ASCII
  whitespace characters (space, tab, newline, carriage return, vertical tab,
  form feed).
* Python exceptions are modelled with `Except String`, the `String` being
  `str(exception)`.  An `Except.error` that no `try/except` of the translated
  code catches models an exception escaping `process_input`.
* `adapter.chat` (the completion backend) is an arbitrary function from the
  call index and the user message to either a reply or an exception.
* Registered tools are arbitrary functions from a keyword-argument mapping to
  a result or an exception.
-/

set_option maxRecDepth 10000

/-- JSON / Python value: `null`, booleans, numbers (exact decimals
`m / 10 ^ e`), strings, arrays and objects (insertion-ordered mappings with
unique keys, as Python dicts). -/
inductive JVal where
  | null : JVal
  | bool (b : Bool) : JVal
  | num (m : Int) (e : Nat) : JVal
  | str (s : String) : JVal
  | arr (l : List JVal) : JVal
  | obj (l : List (String × JVal)) : JVal

mutual

/-- Structural equality on `JVal` (models Python `==` for JSON data; `True == 1`
coercion never matters at the comparison sites the code has, which compare
against string literals). -/
def JVal.beq : JVal → JVal → Bool
  | .null, .null => true
  | .bool a, .bool b => a == b
  | .num m e, .num m' e' => m == m' && e == e'
  | .str a, .str b => a == b
  | .arr a, .arr b => JVal.beqList a b
  | .obj a, .obj b => JVal.beqObj a b
  | _, _ => false

/-- Elementwise equality of JSON arrays. -/
def JVal.beqList : List JVal → List JVal → Bool
  | [], [] => true
  | a :: as, b :: bs => JVal.beq a b && JVal.beqList as bs
  | _, _ => false

/-- Pairwise equality of JSON objects (key order significant, as in the
assoc-list representation). -/
def JVal.beqObj : List (String × JVal) → List (String × JVal) → Bool
  | [], [] => true
  | (k, a) :: as, (k', b) :: bs => k == k' && JVal.beq a b && JVal.beqObj as bs
  | _, _ => false

end

instance : BEq JVal := ⟨JVal.beq⟩

/-- Dictionary lookup (Python `d[k]` / `d.get(k)` on a dict with unique
keys). -/
def jLookup (kvs : List (String × JVal)) (k : String) : Option JVal :=
  (kvs.find? (fun kv => kv.1 == k)).map (fun kv => kv.2)

/-- Python dict assignment `d[k] = v`: replaces the value of an existing key
in place, otherwise appends the new binding (insertion order preserved). -/
def dictSet {α : Type} : List (String × α) → String → α → List (String × α)
  | [], k, v => [(k, v)]
  | (k', v') :: t, k, v =>
      if k' == k then (k, v) :: t else (k', v') :: dictSet t k v

/-- Python truthiness (`if x:`). -/
def pyTruthy : JVal → Bool
  | .null => false
  | .bool b => b
  | .num m _ => m != 0
  | .str s => !s.isEmpty
  | .arr l => !l.isEmpty
  | .obj l => !l.isEmpty

/-- Is the value a Python `str`? -/
def isStrB : JVal → Bool
  | .str _ => true
  | _ => false

/-- Is the value a Python `dict`? (`isinstance(item, dict)`). -/
def isObjB : JVal → Bool
  | .obj _ => true
  | _ => false

/-- Decimal rendering of the number `m / 10 ^ e` (how Python prints the
int/float values this development uses). -/
def pyNumRepr (m : Int) (e : Nat) : String :=
  if e == 0 then toString m
  else
    let sign := if m < 0 then "-" else ""
    let a := m.natAbs
    let d := 10 ^ e
    let fracDigits := toString (a % d)
    let pad := String.mk (List.replicate (e - fracDigits.length) '0')
    sign ++ toString (a / d) ++ "." ++ pad ++ fracDigits

mutual

/-- Python `str(v)` (f-string interpolation). -/
def pyStr : JVal → String
  | .null => "None"
  | .bool true => "True"
  | .bool false => "False"
  | .num m e => pyNumRepr m e
  | .str s => s
  | .arr l => "[" ++ pyReprList l ++ "]"
  | .obj kvs => "\x7b" ++ pyReprObj kvs ++ "\x7d"

/-- Python `repr(v)` (used for elements inside container reprs). -/
def pyRepr : JVal → String
  | .null => "None"
  | .bool true => "True"
  | .bool false => "False"
  | .num m e => pyNumRepr m e
  | .str s => "\x27" ++ s ++ "\x27"
  | .arr l => "[" ++ pyReprList l ++ "]"
  | .obj kvs => "\x7b" ++ pyReprObj kvs ++ "\x7d"

/-- Comma-separated reprs of the elements of a list. -/
def pyReprList : List JVal → String
  | [] => ""
  | [v] => pyRepr v
  | v :: t => pyRepr v ++ ", " ++ pyReprList t

/-- Comma-separated `'key': repr` pairs of a dict. -/
def pyReprObj : List (String × JVal) → String
  | [] => ""
  | [(k, v)] => "\x27" ++ k ++ "\x27: " ++ pyRepr v
  | (k, v) :: t => "\x27" ++ k ++ "\x27: " ++ pyRepr v ++ ", " ++ pyReprObj t

end

/-- Python `repr` of a list of strings, e.g. `list(d.keys())` interpolated
into an f-string: `['a', 'b']`. -/
def pyListRepr (names : List String) : String :=
  "[" ++ String.intercalate ", " (names.map (fun n => "\x27" ++ n ++ "\x27")) ++ "]"

/-- Infix test on lists of characters. -/
def listInfixB (n : List Char) : List Char → Bool
  | [] => n.isEmpty
  | c :: t => n.isPrefixOf (c :: t) || listInfixB n t

/-- Substring test (Python `needle in hay` on strings). -/
def strContains (needle hay : String) : Bool :=
  listInfixB needle.toList hay.toList

/-! ### `AIAgent._clean_json_response` (ai/agent.py lines 158-171)

`reply.strip()`, an optional single leading ```` ```json ```` / ```` ``` ````
marker, an optional single trailing ```` ``` ```` marker, then `strip()`
again.  Modelled on `List Char`; `cleanS` is the `String` wrapper used by the
loop. -/

/-- ASCII whitespace stripped by Python `str.strip()` (the repository never
feeds non-ASCII whitespace through this path). -/
def isPyWS (c : Char) : Bool :=
  c == ' ' || c == '\t' || c == '\n' || c == '\r' || c == '\x0b' || c == '\x0c'

/-- Drop leading whitespace. -/
def dropLeadWS (l : List Char) : List Char := l.dropWhile isPyWS

/-- Drop trailing whitespace. -/
def dropTrailWS (l : List Char) : List Char := (l.reverse.dropWhile isPyWS).reverse

/-- Python `str.strip()`. -/
def pyStripChars (l : List Char) : List Char := dropTrailWS (dropLeadWS l)

/-- `_clean_json_response` on a character list. -/
def cleanChars (l : List Char) : List Char :=
  let r := pyStripChars l
  let r :=
    if List.isPrefixOf "```json".toList r then r.drop 7
    else if List.isPrefixOf "```".toList r then r.drop 3
    else r
  let r := if List.isSuffixOf "```".toList r then r.take (r.length - 3) else r
  pyStripChars r

/-- `_clean_json_response` on a `String`. -/
def cleanS (s : String) : String := String.mk (cleanChars s.toList)

example : cleanS "```json\n\x7b\x7d\n```" = "\x7b\x7d" := by decide
example : cleanS "  hello " = "hello" := by decide
example : cleanS "```abc```" = "abc" := by decide

/-! ### Python dynamic operations used by `process_input`

Each models one Python construct, with `Except.error str(e)` for the
exceptions the construct can raise. -/

/-- Python `key in parsed` for the values `json.loads` can produce:
key-membership on dicts, element equality on lists, substring test on
strings, `TypeError` on non-iterables. -/
def pyContains (v : JVal) (k : String) : Except String Bool :=
  match v with
  | .obj kvs => .ok (jLookup kvs k).isSome
  | .arr l => .ok (l.any (fun x => x == JVal.str k))
  | .str s => .ok (strContains k s)
  | .null => .error "argument of type \x27NoneType\x27 is not iterable"
  | .bool _ => .error "argument of type \x27bool\x27 is not iterable"
  | .num _ _ => .error "argument of type \x27int\x27 is not iterable"

/-- Python `parsed[k]` with a string key: dict lookup; `TypeError` on lists
and strings (string/list indices must be integers). -/
def pySubscript (v : JVal) (k : String) : Except String JVal :=
  match v with
  | .obj kvs =>
      match jLookup kvs k with
      | some x => .ok x
      | none => .error ("\x27" ++ k ++ "\x27")
  | .arr _ => .error "list indices must be integers or slices, not str"
  | .str _ => .error "string indices must be integers"
  | _ => .error "object is not subscriptable"

/-- Python `v.get(k, default)`: only dicts have `.get`; anything else raises
`AttributeError`. -/
def pyGet (v : JVal) (k : String) (dflt : JVal) : Except String JVal :=
  match v with
  | .obj kvs => .ok ((jLookup kvs k).getD dflt)
  | _ => .error "object has no attribute \x27get\x27"

/-- Python `for x in v`: list elements, string characters, dict keys;
`TypeError` for non-iterables. -/
def pyIter : JVal → Except String (List JVal)
  | .arr l => .ok l
  | .str s => .ok (s.toList.map (fun c => JVal.str (String.mk [c])))
  | .obj kvs => .ok (kvs.map (fun kv => JVal.str kv.1))
  | .null => .error "\x27NoneType\x27 object is not iterable"
  | .bool _ => .error "\x27bool\x27 object is not iterable"
  | .num _ _ => .error "\x27int\x27 object is not iterable"

/-- Python `"\n".join(output)`: every element must be a `str`. -/
def pyJoin (sep : String) (l : List JVal) : Except String String :=
  if l.all isStrB then
    .ok (String.intercalate sep (l.map pyStr))
  else
    .error "sequence item: expected str instance"

/-- `yaml_content.replace("\\n", "\n")`: left-to-right, non-overlapping
replacement of the two-character sequence backslash-n by a newline. -/
def replaceEscNl : List Char → List Char
  | [] => []
  | '\\' :: 'n' :: t => '\n' :: replaceEscNl t
  | c :: t => c :: replaceEscNl t

/-- String wrapper for `replaceEscNl`. -/
def pyReplaceEscNl (s : String) : String := String.mk (replaceEscNl s.toList)

/-- Round `n / d` (with `d > 0`) to the nearest integer, ties to even —
Python's rounding for string formatting. -/
def roundHalfEven (n d : Int) : Int :=
  let q := n / d
  let r := n % d
  if 2 * r < d then q
  else if 2 * r > d then q + 1
  else if q % 2 == 0 then q else q + 1

/-- Python percent formatting `.0%` of a number (bools format as the ints
0/1); any other type raises. -/
def pyPercentFmt : JVal → Except String String
  | .num m e => .ok (toString (roundHalfEven (m * 100) ((10 : Int) ^ e)) ++ "%")
  | .bool true => .ok "100%"
  | .bool false => .ok "0%"
  | _ => .error "unsupported format string passed to object.__format__"

example : pyPercentFmt (.num 85 2) = .ok "85%" := rfl
example : pyPercentFmt (.num 0 0) = .ok "0%" := rfl
example : pyPercentFmt (.num 125 3) = .ok "12%" := rfl
example : pyReplaceEscNl "a\\nb" = "a\nb" := by decide

/-! ### `json.dumps` (compact default and `indent=2`) -/

/-- Four lowercase hex digits of `n % 65536`. -/
def hex4 (n : Nat) : String :=
  let dig := fun (k : Nat) => "0123456789abcdef".toList.getD (k % 16) '0'
  String.mk [dig (n / 4096), dig (n / 256), dig (n / 16), dig n]

/-- JSON escaping of one character, with `ensure_ascii=True` as in Python's
default `json.dumps` (non-ASCII becomes `\uXXXX`, astral characters become a
surrogate pair). -/
def jsonEscChar (c : Char) : List Char :=
  if c == '"' then ['\\', '"']
  else if c == '\\' then ['\\', '\\']
  else if c == '\n' then ['\\', 'n']
  else if c == '\t' then ['\\', 't']
  else if c == '\r' then ['\\', 'r']
  else if c.toNat < 32 || c.toNat > 126 then
    if c.toNat < 65536 then ('\\' :: 'u' :: (hex4 c.toNat).toList)
    else
      let k := c.toNat - 65536
      ('\\' :: 'u' :: (hex4 (55296 + k / 1024)).toList) ++
        ('\\' :: 'u' :: (hex4 (56320 + k % 1024)).toList)
  else [c]

/-- JSON string literal. -/
def jsonQuote (s : String) : String :=
  "\"" ++ String.mk (s.toList.flatMap jsonEscChar) ++ "\""

mutual

/-- `json.dumps(v)` with the default separators `", "` and `": "`. -/
def jsonDumps : JVal → String
  | .null => "null"
  | .bool true => "true"
  | .bool false => "false"
  | .num m e => pyNumRepr m e
  | .str s => jsonQuote s
  | .arr [] => "[]"
  | .arr (v :: t) => "[" ++ jsonDumps v ++ jsonDumpsArr t ++ "]"
  | .obj [] => "\x7b\x7d"
  | .obj ((k, v) :: t) =>
      "\x7b" ++ jsonQuote k ++ ": " ++ jsonDumps v ++ jsonDumpsObj t ++ "\x7d"

/-- Remaining array elements, comma-separated. -/
def jsonDumpsArr : List JVal → String
  | [] => ""
  | v :: t => ", " ++ jsonDumps v ++ jsonDumpsArr t

/-- Remaining object entries, comma-separated. -/
def jsonDumpsObj : List (String × JVal) → String
  | [] => ""
  | (k, v) :: t => ", " ++ jsonQuote k ++ ": " ++ jsonDumps v ++ jsonDumpsObj t

end

/-- `2 * n` spaces, the indentation of nesting level `n` under `indent=2`. -/
def indSp (n : Nat) : String := String.mk (List.replicate (2 * n) ' ')

mutual

/-- `json.dumps(v, indent=2)` at nesting level `lvl`. -/
def jsonDumpsInd : Nat → JVal → String
  | _, .null => "null"
  | _, .bool true => "true"
  | _, .bool false => "false"
  | _, .num m e => pyNumRepr m e
  | _, .str s => jsonQuote s
  | _, .arr [] => "[]"
  | lvl, .arr (v :: t) =>
      "[\n" ++ indSp (lvl + 1) ++ jsonDumpsInd (lvl + 1) v ++
        jsonDumpsIndArr (lvl + 1) t ++ "\n" ++ indSp lvl ++ "]"
  | _, .obj [] => "\x7b\x7d"
  | lvl, .obj ((k, v) :: t) =>
      "\x7b\n" ++ indSp (lvl + 1) ++ jsonQuote k ++ ": " ++
        jsonDumpsInd (lvl + 1) v ++ jsonDumpsIndObj (lvl + 1) t ++
        "\n" ++ indSp lvl ++ "\x7d"

/-- Remaining array elements under `indent=2`. -/
def jsonDumpsIndArr : Nat → List JVal → String
  | _, [] => ""
  | lvl, v :: t => ",\n" ++ indSp lvl ++ jsonDumpsInd lvl v ++ jsonDumpsIndArr lvl t

/-- Remaining object entries under `indent=2`. -/
def jsonDumpsIndObj : Nat → List (String × JVal) → String
  | _, [] => ""
  | lvl, (k, v) :: t =>
      ",\n" ++ indSp lvl ++ jsonQuote k ++ ": " ++ jsonDumpsInd lvl v ++
        jsonDumpsIndObj lvl t

end

example : jsonDumps (.obj [("user_question", .str "list pods")]) =
    "\x7b\"user_question\": \"list pods\"\x7d" := by decide
example : jsonDumpsInd 0 (.obj [("foo", .str "bar"), ("n", .arr [.num 1 0])]) =
    "\x7b\n  \"foo\": \"bar\",\n  \"n\": [\n    1\n  ]\n\x7d" := by decide

/-! ### `json.loads`

A recursive-descent parser producing a `JVal`.  It accepts the standard JSON
grammar (objects, arrays, strings with the usual escapes, decimal numbers
with optional fraction/exponent, `true`/`false`/`null`); duplicate object
keys keep the last occurrence, as in CPython.  Recursion is bounded by an
explicit fuel, amply larger than the input length. -/

/-- JSON insignificant whitespace. -/
def isJsonWS (c : Char) : Bool :=
  c == ' ' || c == '\t' || c == '\n' || c == '\r'

/-- Skip insignificant whitespace. -/
def skipJsonWS (l : List Char) : List Char := l.dropWhile isJsonWS

/-- Digit-string to natural number. -/
def digitsToNat (l : List Char) : Nat :=
  l.foldl (fun acc c => acc * 10 + (c.toNat - 48)) 0

/-- Parse the escape tail of a string literal after a backslash. -/
def jParseEsc : List Char → Except String (Char × List Char)
  | '"' :: t => .ok ('"', t)
  | '\\' :: t => .ok ('\\', t)
  | '/' :: t => .ok ('/', t)
  | 'n' :: t => .ok ('\n', t)
  | 't' :: t => .ok ('\t', t)
  | 'r' :: t => .ok ('\r', t)
  | 'b' :: t => .ok ('\x08', t)
  | 'f' :: t => .ok ('\x0c', t)
  | 'u' :: a :: b :: c :: d :: t =>
      let hv := fun (x : Char) =>
        if x.isDigit then some (x.toNat - 48)
        else if 'a' ≤ x && x ≤ 'f' then some (x.toNat - 87)
        else if 'A' ≤ x && x ≤ 'F' then some (x.toNat - 55)
        else none
      match hv a, hv b, hv c, hv d with
      | some w, some x, some y, some z =>
          let n := ((w * 16 + x) * 16 + y) * 16 + z
          .ok (if h : n.isValidChar then Char.ofNatAux n h else '?', t)
      | _, _, _, _ => .error "Invalid \\uXXXX escape"
  | _ => .error "Invalid \\escape"

/-- Parse the body of a string literal (opening quote already consumed). -/
def jParseStrBody (fuel : Nat) (cs : List Char) : Except String (String × List Char) :=
  match fuel with
  | 0 => .error "Unterminated string"
  | fuel + 1 =>
      match cs with
      | [] => .error "Unterminated string starting at"
      | '"' :: t => .ok ("", t)
      | '\\' :: t =>
          match jParseEsc t with
          | .error e => .error e
          | .ok (c, t') =>
              match jParseStrBody fuel t' with
              | .error e => .error e
              | .ok (s, rest) => .ok (String.mk (c :: s.toList), rest)
      | c :: t =>
          match jParseStrBody fuel t with
          | .error e => .error e
          | .ok (s, rest) => .ok (String.mk (c :: s.toList), rest)

/-- Parse a JSON number starting at `cs` (first char is a digit or `-`). -/
def jParseNum (cs : List Char) : Except String (JVal × List Char) :=
  let (neg, cs₁) := match cs with
    | '-' :: t => (true, t)
    | _ => (false, cs)
  let intDigits := cs₁.takeWhile Char.isDigit
  let rest₁ := cs₁.dropWhile Char.isDigit
  if intDigits.isEmpty then .error "Expecting value" else
  let (fracDigits, rest₂) := match rest₁ with
    | '.' :: t => (t.takeWhile Char.isDigit, t.dropWhile Char.isDigit)
    | _ => ([], rest₁)
  let (expOk, expNeg, expDigits, rest₃) := match rest₂ with
    | 'e' :: '-' :: t => (true, true, t.takeWhile Char.isDigit, t.dropWhile Char.isDigit)
    | 'e' :: '+' :: t => (true, false, t.takeWhile Char.isDigit, t.dropWhile Char.isDigit)
    | 'e' :: t => (true, false, t.takeWhile Char.isDigit, t.dropWhile Char.isDigit)
    | 'E' :: '-' :: t => (true, true, t.takeWhile Char.isDigit, t.dropWhile Char.isDigit)
    | 'E' :: '+' :: t => (true, false, t.takeWhile Char.isDigit, t.dropWhile Char.isDigit)
    | 'E' :: t => (true, false, t.takeWhile Char.isDigit, t.dropWhile Char.isDigit)
    | _ => (false, false, [], rest₂)
  if rest₂ ≠ rest₃ && expDigits.isEmpty then .error "Expecting digits in exponent" else
  let _ := expOk
  let mantissa : Int :=
    (if neg then -1 else 1) * Int.ofNat (digitsToNat (intDigits ++ fracDigits))
  let expVal : Int :=
    (if expNeg then -1 else 1) * Int.ofNat (digitsToNat expDigits)
  let e10 : Int := Int.ofNat fracDigits.length - expVal
  if e10 ≤ 0 then
    .ok (.num (mantissa * (10 : Int) ^ (-e10).toNat) 0, rest₃)
  else
    .ok (.num mantissa e10.toNat, rest₃)

mutual

/-- Parse one JSON value, leading whitespace allowed. -/
def jParseVal (fuel : Nat) (cs : List Char) : Except String (JVal × List Char) :=
  match fuel with
  | 0 => .error "Depth exceeded"
  | fuel + 1 =>
      match skipJsonWS cs with
      | [] => .error "Expecting value"
      | c :: rest =>
          if c == '\x7b' then jParseObjBody fuel (skipJsonWS rest) []
          else if c == '[' then
            match skipJsonWS rest with
            | ']' :: t => .ok (.arr [], t)
            | other => jParseArrElems fuel other []
          else if c == '"' then
            match jParseStrBody fuel rest with
            | .error e => .error e
            | .ok (s, t) => .ok (.str s, t)
          else if c == 't' then
            match rest with
            | 'r' :: 'u' :: 'e' :: t => .ok (.bool true, t)
            | _ => .error "Expecting value"
          else if c == 'f' then
            match rest with
            | 'a' :: 'l' :: 's' :: 'e' :: t => .ok (.bool false, t)
            | _ => .error "Expecting value"
          else if c == 'n' then
            match rest with
            | 'u' :: 'l' :: 'l' :: t => .ok (.null, t)
            | _ => .error "Expecting value"
          else if c == '-' || c.isDigit then jParseNum (c :: rest)
          else .error "Expecting value"

/-- Parse the entries of an object (opening brace consumed, whitespace
skipped); `acc` holds entries parsed so far, later duplicates override. -/
def jParseObjBody (fuel : Nat) (cs : List Char) (acc : List (String × JVal)) :
    Except String (JVal × List Char) :=
  match fuel with
  | 0 => .error "Depth exceeded"
  | fuel + 1 =>
      match cs with
      | '\x7d' :: t =>
          if acc.isEmpty then .ok (.obj [], t)
          else .error "Expecting property name enclosed in double quotes"
      | '"' :: t =>
          match jParseStrBody fuel t with
          | .error e => .error e
          | .ok (k, t₁) =>
              match skipJsonWS t₁ with
              | ':' :: t₂ =>
                  match jParseVal fuel t₂ with
                  | .error e => .error e
                  | .ok (v, t₃) =>
                      let acc' := dictSet acc k v
                      match skipJsonWS t₃ with
                      | ',' :: t₄ => jParseObjBody fuel (skipJsonWS t₄) acc'
                      | '\x7d' :: t₄ => .ok (.obj acc', t₄)
                      | _ => .error "Expecting \x27,\x27 delimiter"
              | _ => .error "Expecting \x27:\x27 delimiter"
      | _ => .error "Expecting property name enclosed in double quotes"

/-- Parse the elements of a non-empty array (opening bracket consumed,
whitespace skipped). -/
def jParseArrElems (fuel : Nat) (cs : List Char) (acc : List JVal) :
    Except String (JVal × List Char) :=
  match fuel with
  | 0 => .error "Depth exceeded"
  | fuel + 1 =>
      match jParseVal fuel cs with
      | .error e => .error e
      | .ok (v, t) =>
          match skipJsonWS t with
          | ',' :: t₁ => jParseArrElems fuel t₁ (acc ++ [v])
          | ']' :: t₁ => .ok (.arr (acc ++ [v]), t₁)
          | _ => .error "Expecting \x27,\x27 delimiter"

end

/-- `json.loads(s)`: parse one value, then require only whitespace to
remain. -/
def jsonLoadsS (s : String) : Except String JVal :=
  match jParseVal (4 * s.length + 16) s.toList with
  | .error e => .error e
  | .ok (v, rest) =>
      match skipJsonWS rest with
      | [] => .ok v
      | _ => .error "Extra data"

example : jsonLoadsS "\x7b\"tool_call\": \x7b\"name\": \"get_pods\", \"args\": \x7b\x7d\x7d\x7d" =
    .ok (.obj [("tool_call", .obj [("name", .str "get_pods"), ("args", .obj [])])]) := by
  rfl
example : jsonLoadsS "5" = .ok (.num 5 0) := by rfl
example : jsonLoadsS "[1, \"a\", true, null]" =
    .ok (.arr [.num 1 0, .str "a", .bool true, .null]) := by rfl
example : jsonLoadsS "\x7b\"c\": 0.85\x7d" = .ok (.obj [("c", .num 85 2)]) := by rfl
example : (jsonLoadsS "not json at all").isOk = false := by rfl
example : jsonLoadsS "\x7b\"a\": 1, \"a\": 2\x7d" = .ok (.obj [("a", .num 2 0)]) := by rfl

/-! ### Tool registry and dispatcher (mcp/server.py)

`_TOOL_REGISTRY` is a Python dict from tool name to callable.  A callable is
modelled as a function from the keyword-argument mapping to a result or an
exception message. -/

/-- A registered operation: keyword arguments to result or `str(exception)`. -/
def ToolFn : Type := List (String × JVal) → Except String JVal

/-- The tool registry (a Python dict: insertion-ordered, unique keys). -/
def Registry : Type := List (String × ToolFn)

/-- The `@tool(name)` decorator body (mcp/server.py lines 12-18):
`_TOOL_REGISTRY[name or fn.__name__] = fn` — a plain dict assignment.
`fnName` stands for `fn.__name__`. -/
def toolRegister (reg : Registry) (name : Option String) (fnName : String)
    (fn : ToolFn) : Registry :=
  dictSet reg (name.getD fnName) fn

/-- The keys of `list_tools()` (mcp/server.py lines 21-27): the registered
names in insertion order.  (The values — parameter names and truncated
docstrings — never influence control flow in `process_input`.) -/
def listToolKeys (reg : Registry) : List String := reg.map (fun kv => kv.1)

/-- Registry lookup. -/
def regFind (reg : Registry) (name : String) : Option ToolFn :=
  (reg.find? (fun kv => kv.1 == name)).map (fun kv => kv.2)

/-- `invoke_local(tool_name, payload)` (mcp/server.py lines 30-39): raises
`KeyError("tool not found")` for an unregistered name (its `str` is the
quoted argument), then calls `fn(**payload)` — which raises `TypeError` when
the payload is not a mapping — and otherwise propagates whatever the
operation does.  `LocalMCP.invoke` and the agent's `_invoke_tool_sync` are
transparent wrappers around this. -/
def invokeLocal (reg : Registry) (toolName : String) (payload : JVal) :
    Except String JVal :=
  match regFind reg toolName with
  | none => .error "\x27tool not found\x27"
  | some fn =>
      match payload with
      | .obj kvs => fn kvs
      | _ => .error "argument after ** must be a mapping"

/-! ### `AIAgent` helpers (ai/agent.py) -/

/-- Keys of a dict value (`list(tool_args.keys())`).  Reached only with dict
arguments: when the arguments are not a mapping the failure is the `**`
`TypeError`, whose message does not match the branch that calls `.keys()`. -/
def pyKeys : JVal → List String
  | .obj kvs => kvs.map (fun kv => kv.1)
  | _ => []

/-- `_handle_tool_error` (ai/agent.py lines 173-200): builds the structured
`error_info` record appended to the conversation context.  A recovery hint is
produced only when the message matches the missing-required-positional-
argument pattern and mentions `pod_name`; otherwise that branch leaves the
hint empty, and a non-matching message gets the generic three-field record. -/
def handleToolError (toolName : String) (toolArgs : JVal) (errMsg : String) : JVal :=
  if strContains "missing 1 required positional argument" errMsg then
    let hint :=
      if strContains "pod_name" errMsg then
        "Tool \x27" ++ toolName ++ "\x27 requires \x27pod_name\x27 parameter. You used: " ++
          pyListRepr (pyKeys toolArgs) ++ ". Try using \x27pod_name\x27 instead of \x27pod\x27."
      else ""
    .obj [("tool", .str toolName), ("args", toolArgs),
          ("error", .str ("Parameter mismatch: " ++ errMsg)),
          ("hint", .str hint),
          ("recovery", .str "Retry with correct parameter names")]
  else
    .obj [("tool", .str toolName), ("args", toolArgs), ("error", .str errMsg)]

/-- `_format_data_response` (ai/agent.py lines 202-228): optional summary
header, then the items — bulleted for `format == "list"` and for any
unrecognized format; for `format == "table"` each dict item becomes
`**key**: value` lines followed by a blank line while non-dict items are
passed over by the `isinstance` guard. -/
def formatDataResponse (resp : JVal) : Except String String :=
  match resp with
  | .obj kvs =>
      let summary := (jLookup kvs "summary").getD .null
      let headerLines : List String :=
        if pyTruthy summary then ["## 📋 " ++ pyStr summary, ""] else []
      let items := (jLookup kvs "items").getD (.arr [])
      if pyTruthy items then
        match pyIter items with
        | .error e => .error e
        | .ok its =>
            let fmt := (jLookup kvs "format").getD .null
            let body : List String :=
              if fmt == JVal.str "list" then
                its.map (fun it => "- " ++ pyStr it)
              else if fmt == JVal.str "table" then
                its.flatMap (fun it =>
                  match it with
                  | .obj ikvs =>
                      ikvs.map (fun kv => "**" ++ kv.1 ++ "**: " ++ pyStr kv.2) ++ [""]
                  | _ => [])
              else
                its.map (fun it => "- " ++ pyStr it)
            .ok (String.intercalate "\n" (headerLines ++ body))
      else .ok (String.intercalate "\n" headerLines)
  | _ => .error "object has no attribute \x27get\x27"

/-- The final-response renderer inlined in `process_input` (ai/agent.py lines
316-348): Analysis and Recommendation sections (the raw values, so a
non-string makes the final `"\n".join` raise), optional YAML block with
escaped newlines unescaped, optional kubectl block, optional post-check
bullets, and the trailing confidence percentage. -/
def formatFinalResponse (resp : JVal) : Except String String :=
  match resp with
  | .obj kvs =>
      let analysis := (jLookup kvs "analysis").getD (.str "N/A")
      let recommendation := (jLookup kvs "recommendation").getD (.str "N/A")
      let base : List JVal :=
        [.str "## 🔍 Analysis", analysis, .str "\n## 💡 Recommendation", recommendation]
      let yv := (jLookup kvs "yaml").getD .null
      let yamlStep : Except String (List JVal) :=
        if pyTruthy yv then
          match yv with
          | .str s =>
              .ok [.str "\n## 📄 Generated YAML",
                   .str ("```yaml\n" ++ pyReplaceEscNl s ++ "\n```")]
          | _ => .error "object has no attribute \x27replace\x27"
        else .ok []
      match yamlStep with
      | .error e => .error e
      | .ok yamlLines =>
          let kv := (jLookup kvs "kubectl").getD .null
          let kubectlLines : List JVal :=
            if pyTruthy kv then
              [.str "\n## 🔧 Suggested Command", .str ("```bash\n" ++ pyStr kv ++ "\n```")]
            else []
          let pv := (jLookup kvs "post_checks").getD .null
          let postStep : Except String (List JVal) :=
            if pyTruthy pv then
              match pyIter pv with
              | .error e => .error e
              | .ok checks =>
                  .ok (.str "\n## ✅ Post-Checks" ::
                    checks.map (fun c => JVal.str ("- " ++ pyStr c)))
            else .ok []
          match postStep with
          | .error e => .error e
          | .ok postLines =>
              match pyPercentFmt ((jLookup kvs "confidence").getD (.num 0 1)) with
              | .error e => .error e
              | .ok pct =>
                  pyJoin "\n"
                    (base ++ yamlLines ++ kubectlLines ++ postLines ++
                      [.str ("\n*Confidence: " ++ pct ++ "*")])
  | _ => .error "object has no attribute \x27get\x27"

/-! ### `process_input` (ai/agent.py lines 230-354)

The backend (`adapter.chat`) is modelled as a function from the call index
and the user message to either the reply text or `str(exception)` — the
system instruction is a fixed function of the registry and carries no
per-step information, so it is folded into the backend.  Besides the
returned string (or escaped exception), the run result records the user
messages actually sent to the backend and the tool dispatches actually
attempted, so that call counts and the context fed to each step are
observable. -/

/-- A completion backend: call index and user message to reply or
`str(exception)`. -/
def Backend : Type := Nat → String → Except String String

/-- Outcome of classifying and acting on one parsed reply. -/
inductive StepOut where
  | escape (e : String) : StepOut
  | done (s : String) : StepOut
  | next (record : JVal) (dispatched : String × JVal) : StepOut

/-- The adapter-failure terminal message, ending with the exception text. -/
def adapterErrMsg (e : String) : String :=
  "❌ Error: Failed to get AI response: " ++ e

/-- The `json.JSONDecodeError` terminal message (raw reply truncated to 500
characters, then the decode diagnostic). -/
def decodeErrMsg (reply e : String) : String :=
  "❌ Error: AI returned invalid JSON. This usually means:\n" ++
  "1. The AI model is struggling with the complex prompt\n" ++
  "2. Token limit was exceeded\n" ++
  "3. The response was truncated\n\n" ++
  "Raw response (first 500 chars):\n" ++ String.mk (reply.toList.take 500) ++
  "\n\nError: " ++ e

/-- The unknown-tool terminal message: names the requested tool and lists
the registered tool names. -/
def unknownToolMsg (toolName : JVal) (names : List String) : String :=
  "❌ Error: AI requested unknown tool \x27" ++ pyStr toolName ++
    "\x27. Available: " ++ pyListRepr names

/-- The unexpected-format terminal message: echoes the parsed structure via
`json.dumps` with `indent=2`. -/
def unexpectedFmtMsg (parsed : JVal) : String :=
  "❌ Error: AI returned unexpected format:\n" ++ jsonDumpsInd 0 parsed

/-- The step-budget terminal message, naming `max_steps`. -/
def budgetMsg (maxSteps : Nat) : String :=
  "❌ Error: Reached maximum conversation steps (" ++ toString maxSteps ++
  ") without a final response. The AI may be stuck in a loop or the problem is too complex for the current configuration."

/-- The ToolResult record appended to the conversation context on dispatch
success. -/
def toolResultRecord (toolName : String) (toolArgs result : JVal) : JVal :=
  .obj [("tool", .str toolName), ("args", toolArgs), ("result", result)]

/-- The initial user message `json.dumps({"user_question": user_question})`. -/
def initialUserMsg (q : String) : String :=
  jsonDumps (.obj [("user_question", .str q)])

/-- The follow-up user message carrying the conversation context. -/
def contextUserMsg (q : String) (ctx : List JVal) : String :=
  jsonDumps (.obj [("user_question", .str q), ("conversation", .arr ctx)])

/-- Classification and action for one successfully parsed reply: the
`if "tool_call" in parsed ... elif ... elif ... else` cascade of
`process_input`.  `tool_call` wins over the other keys; a membership test on
a non-container and an attribute/subscript access on an unexpected payload
type escape as uncaught exceptions, exactly as the Python does. -/
def stepAct (reg : Registry) (parsed : JVal) : StepOut :=
  match pyContains parsed "tool_call" with
  | .error e => .escape e
  | .ok true =>
      match pySubscript parsed "tool_call" with
      | .error e => .escape e
      | .ok toolInfo =>
          match pyGet toolInfo "name" .null with
          | .error e => .escape e
          | .ok toolName =>
              match pyGet toolInfo "args" (.obj []) with
              | .error e => .escape e
              | .ok toolArgs =>
                  match toolName with
                  | .arr _ => .escape "unhashable type: \x27list\x27"
                  | .obj _ => .escape "unhashable type: \x27dict\x27"
                  | .str s =>
                      if (listToolKeys reg).contains s then
                        match invokeLocal reg s toolArgs with
                        | .ok result =>
                            .next (toolResultRecord s toolArgs result) (s, toolArgs)
                        | .error e =>
                            .next (handleToolError s toolArgs e) (s, toolArgs)
                      else .done (unknownToolMsg (.str s) (listToolKeys reg))
                  | other => .done (unknownToolMsg other (listToolKeys reg))
  | .ok false =>
      match pyContains parsed "data_response" with
      | .error e => .escape e
      | .ok true =>
          match pySubscript parsed "data_response" with
          | .error e => .escape e
          | .ok resp =>
              match formatDataResponse resp with
              | .error e => .escape e
              | .ok s => .done s
      | .ok false =>
          match pyContains parsed "final_response" with
          | .error e => .escape e
          | .ok true =>
              match pySubscript parsed "final_response" with
              | .error e => .escape e
              | .ok resp =>
                  match formatFinalResponse resp with
                  | .error e => .escape e
                  | .ok s => .done s
          | .ok false => .done (unexpectedFmtMsg parsed)

/-- Observable outcome of a `process_input` run: the returned string (or the
escaped exception), the user messages sent to the backend in order, and the
tool dispatches attempted in order. -/
structure RunResult where
  result : Except String String
  sent : List String
  dispatched : List (String × JVal)

/-- The `for step in range(max_steps)` loop of `process_input`.  `fuel` is
the number of remaining iterations, `k` the index of the next backend call,
`ctx` the conversation context, `um` the current user message. -/
def processLoop (reg : Registry) (backend : Backend) (q : String)
    (maxSteps : Nat) : Nat → Nat → List JVal → String → RunResult
  | 0, _, _, _ => ⟨.ok (budgetMsg maxSteps), [], []⟩
  | fuel + 1, k, ctx, um =>
      match backend k um with
      | .error e => ⟨.ok (adapterErrMsg e), [um], []⟩
      | .ok reply₀ =>
          let reply := cleanS reply₀
          match jsonLoadsS reply with
          | .error e => ⟨.ok (decodeErrMsg reply e), [um], []⟩
          | .ok parsed =>
              match stepAct reg parsed with
              | .escape e => ⟨.error e, [um], []⟩
              | .done s => ⟨.ok s, [um], []⟩
              | .next record disp =>
                  let ctx' := ctx ++ [record]
                  let um' := contextUserMsg q ctx'
                  let r := processLoop reg backend q maxSteps fuel (k + 1) ctx' um'
                  ⟨r.result, um :: r.sent, disp :: r.dispatched⟩

/-- `process_input(user_question, max_steps)`. -/
def processInput (reg : Registry) (backend : Backend) (q : String)
    (maxSteps : Nat) : RunResult :=
  processLoop reg backend q maxSteps maxSteps 0 [] (initialUserMsg q)

/-! ## Claims -/

/-! ### C5 — duplicate registration

`tool` (mcp/server.py lines 12-18) performs `_TOOL_REGISTRY[key] = fn`: a
plain dict assignment.  There is no presence check and no failure channel, so
a second registration under an existing name silently replaces the first. -/

/-- C5 counterexample: registering a second operation under the
already-present name `"get_pods"` raises no configuration error — the
registry still lists the name once and `invoke` now runs the second
operation, i.e. the first was silently replaced, contrary to the claim that
duplicate registration fails at startup. -/
theorem c5_counterexample :
    listToolKeys
        (toolRegister
          (toolRegister [] none "get_pods" (fun _ => .ok (.str "one")))
          none "get_pods" (fun _ => .ok (.str "two"))) = ["get_pods"] ∧
    invokeLocal
        (toolRegister
          (toolRegister [] none "get_pods" (fun _ => .ok (.str "one")))
          none "get_pods" (fun _ => .ok (.str "two")))
        "get_pods" (.obj []) = .ok (.str "two") ∧
    invokeLocal
        (toolRegister
          (toolRegister [] none "get_pods" (fun _ => .ok (.str "one")))
          none "get_pods" (fun _ => .ok (.str "two")))
        "get_pods" (.obj []) ≠ .ok (.str "one") := by
  refine ⟨rfl, rfl, fun h => ?_⟩
  simp [toolRegister, dictSet, invokeLocal, regFind] at h

/-- C5 amended: registering an operation under a name already present in the
registry silently replaces the stored operation — the key list is unchanged
and lookup afterwards yields the newly registered operation; no error is
raised (the decorator has no failure path at all). -/
theorem c5_register_replaces (reg : Registry) (name : Option String)
    (fnName : String) (fn : ToolFn)
    (h : (listToolKeys reg).contains (name.getD fnName) = true) :
    listToolKeys (toolRegister reg name fnName fn) = listToolKeys reg ∧
    regFind (toolRegister reg name fnName fn) (name.getD fnName) = some fn := by
  unfold toolRegister regFind
  induction reg with
  | nil => simp [listToolKeys] at h
  | cons hd tl ih =>
      obtain ⟨k', f'⟩ := hd
      by_cases hk : k' = name.getD fnName
      · subst hk
        simp [dictSet, listToolKeys, List.find?]
      · have hb : (name.getD fnName == k') = false :=
          beq_eq_false_iff_ne.mpr (fun e => hk e.symm)
        have h' : (listToolKeys tl).contains (name.getD fnName) = true := by
          simpa [listToolKeys, List.contains_cons, hb] using h
        have := ih h'
        simp only [dictSet, listToolKeys, List.map_cons, List.find?] at *
        refine ⟨?_, ?_⟩
        · simp [hk, this.1]
        · simpa [hk, show (k' == name.getD fnName) = false by simpa using hk] using this.2

/-- C5 witness: the amended statement at a concrete registry already holding
`"get_pods"`. -/
theorem c5_witness :
    listToolKeys
        (toolRegister [("get_pods", (fun _ => .ok JVal.null : ToolFn))]
          none "get_pods" (fun _ => .ok (.str "x"))) =
      listToolKeys [("get_pods", (fun _ => .ok JVal.null : ToolFn))] ∧
    regFind
        (toolRegister [("get_pods", (fun _ => .ok JVal.null : ToolFn))]
          none "get_pods" (fun _ => .ok (.str "x"))) "get_pods" =
      some (fun _ => .ok (.str "x")) :=
  c5_register_replaces [("get_pods", fun _ => .ok JVal.null)] none "get_pods"
    (fun _ => .ok (.str "x")) (by decide)

/-! ### C2 — structured tool errors and recovery hints

`process_input` wraps the dispatch in `try/except Exception` and converts a
failure into the structured record built by `_handle_tool_error` (ai/agent.py
lines 173-200), so the underlying exception never reaches `process_input`'s
caller.  However, the recovery hint is produced only when the error message
both matches the missing-required-positional-argument pattern and mentions
`pod_name`; for any other missing parameter the hint field is the empty
string and names nothing. -/

/-- C2 counterexample: `get_deployment_yaml` (mcp/tools_enhanced.py) has a
required parameter `deployment_name`; calling it as
`{"deployment": "web"}` produces exactly the missing-required-parameter
pattern the claim covers, yet the structured error's hint is the empty
string: it does not name the likely correct parameter `deployment_name` (nor
any other), refuting the claim's "recovery hint naming the likely correct
parameter when the failure matches the missing-required-parameter pattern". -/
theorem c2_counterexample :
    strContains "missing 1 required positional argument"
      "get_deployment_yaml() missing 1 required positional argument: \x27deployment_name\x27" = true ∧
    pySubscript
        (handleToolError "get_deployment_yaml" (.obj [("deployment", .str "web")])
          "get_deployment_yaml() missing 1 required positional argument: \x27deployment_name\x27")
        "hint" = .ok (.str "") ∧
    strContains "deployment_name" "" = false := by
  exact ⟨by decide, rfl, by decide⟩

/-- C2 amended: on dispatch failure the agent's error handler (not `invoke`
itself, which propagates the exception up to `process_input`'s `except`
block) builds a structured record that preserves the tool name, the args as
supplied and a human-readable message; a recovery hint is attached exactly
when the message matches the missing-required-positional-argument pattern
*and* mentions `pod_name` (the `pod` / `pod_name` aliasing case) — any other
matching failure carries an empty hint. -/
theorem c2_structured_error (t : String) (args : JVal) (e : String) :
    pySubscript (handleToolError t args e) "tool" = .ok (.str t) ∧
    pySubscript (handleToolError t args e) "args" = .ok args ∧
    (strContains "missing 1 required positional argument" e = true →
      pySubscript (handleToolError t args e) "error" =
        .ok (.str ("Parameter mismatch: " ++ e)) ∧
      (strContains "pod_name" e = true →
        pySubscript (handleToolError t args e) "hint" =
          .ok (.str ("Tool \x27" ++ t ++ "\x27 requires \x27pod_name\x27 parameter. You used: " ++
            pyListRepr (pyKeys args) ++ ". Try using \x27pod_name\x27 instead of \x27pod\x27."))) ∧
      (strContains "pod_name" e = false →
        pySubscript (handleToolError t args e) "hint" = .ok (.str ""))) ∧
    (strContains "missing 1 required positional argument" e = false →
      pySubscript (handleToolError t args e) "error" = .ok (.str e)) := by
  unfold handleToolError
  by_cases hp : strContains "missing 1 required positional argument" e = true
  · by_cases hq : strContains "pod_name" e = true
    · simp [hp, hq, pySubscript, jLookup, List.find?]
    · simp [hp, eq_false_of_ne_true hq, pySubscript, jLookup, List.find?]
  · simp [eq_false_of_ne_true hp, pySubscript, jLookup, List.find?]

/-- C2 witness: the amended statement at the `pod` / `pod_name` aliasing
input, with both pattern hypotheses discharged concretely. -/
theorem c2_witness :
    pySubscript
        (handleToolError "get_pod_logs" (.obj [("pod", .str "web-1")])
          "get_pod_logs() missing 1 required positional argument: \x27pod_name\x27")
        "hint" =
      .ok (.str ("Tool \x27get_pod_logs\x27 requires \x27pod_name\x27 parameter. You used: " ++
        pyListRepr (pyKeys (.obj [("pod", .str "web-1")])) ++
        ". Try using \x27pod_name\x27 instead of \x27pod\x27.")) :=
  ((c2_structured_error "get_pod_logs" (.obj [("pod", .str "web-1")])
      "get_pod_logs() missing 1 required positional argument: \x27pod_name\x27").2.2.1
    (by decide)).2.1 (by decide)

/-! ### C6 — fenced-code-block stripping

`_clean_json_response` strips at most one leading and one trailing fence
marker.  The claimed left-inverse law fails for payloads that themselves end
(or begin) with a fence marker: wrapping consumes the *payload's* marker
slot.  It holds for payloads free of boundary fence markers. -/

/-- Dropping leading whitespace ignores an all-whitespace prefix. -/
theorem helper_dropWhile_app (ws l : List Char)
    (h : ∀ c ∈ ws, isPyWS c = true) :
    (ws ++ l).dropWhile isPyWS = l.dropWhile isPyWS := by
  induction ws with
  | nil => rfl
  | cons a t ih =>
      have ha : isPyWS a = true := h a (List.mem_cons_self a t)
      simp only [List.cons_append, List.dropWhile_cons, ha, if_true]
      exact ih (fun c hc => h c (List.mem_cons_of_mem a hc))

/-- A head that is not whitespace stops `dropWhile`. -/
theorem helper_dropWhile_cons_false (c : Char) (l : List Char)
    (hc : isPyWS c = false) : (c :: l).dropWhile isPyWS = c :: l := by
  simp [List.dropWhile_cons, hc]

/-- `dropWhile` is idempotent. -/
theorem helper_dropWhile_idem (p : Char → Bool) (l : List Char) :
    (l.dropWhile p).dropWhile p = l.dropWhile p := by
  induction l with
  | nil => rfl
  | cons a t ih =>
      by_cases ha : p a = true
      · simp [List.dropWhile_cons, ha, ih]
      · have ha' : p a = false := eq_false_of_ne_true ha
        simp [List.dropWhile_cons, ha']

/-- The head surviving `dropWhile` fails the predicate. -/
theorem helper_dropWhile_head_false (p : Char → Bool) (l : List Char)
    (c : Char) (t : List Char) (h : l.dropWhile p = c :: t) : p c = false := by
  induction l with
  | nil => simp at h
  | cons a t' ih =>
      by_cases ha : p a = true
      · exact ih (by simpa [List.dropWhile_cons, ha] using h)
      · have ha' : p a = false := eq_false_of_ne_true ha
        simp [List.dropWhile_cons, ha'] at h
        exact h.1 ▸ ha'

/-- `dropWhile` keeps a final element that fails the predicate. -/
theorem helper_dropWhile_snoc (p : Char → Bool) (xs : List Char) (c : Char)
    (hc : p c = false) : ∃ zs, (xs ++ [c]).dropWhile p = zs ++ [c] := by
  induction xs with
  | nil => exact ⟨[], by simp [List.dropWhile_cons, hc]⟩
  | cons a t ih =>
      by_cases ha : p a = true
      · obtain ⟨zs, hz⟩ := ih
        exact ⟨zs, by simpa [List.dropWhile_cons, ha] using hz⟩
      · have ha' : p a = false := eq_false_of_ne_true ha
        exact ⟨a :: t, by simp [List.dropWhile_cons, ha']⟩

/-- Dropping trailing whitespace is idempotent. -/
theorem helper_dropTrail_idem (l : List Char) :
    dropTrailWS (dropTrailWS l) = dropTrailWS l := by
  unfold dropTrailWS
  rw [List.reverse_reverse, helper_dropWhile_idem]

/-- A stripped-from-the-left list is unchanged by another left strip after a
right strip. -/
theorem helper_dropLead_dropTrail (l : List Char) :
    dropLeadWS (dropTrailWS (dropLeadWS l)) = dropTrailWS (dropLeadWS l) := by
  rcases hd : dropLeadWS l with _ | ⟨c, t⟩
  · simp [dropTrailWS, dropLeadWS]
  · have hc : isPyWS c = false := helper_dropWhile_head_false isPyWS l c t hd
    obtain ⟨zs, hz⟩ := helper_dropWhile_snoc isPyWS t.reverse c hc
    have : dropTrailWS (c :: t) = c :: zs.reverse := by
      unfold dropTrailWS
      rw [List.reverse_cons, hz, List.reverse_append, List.reverse_cons]
      simp
    rw [this]
    exact helper_dropWhile_cons_false c zs.reverse hc

/-- `str.strip()` is idempotent. -/
theorem helper_strip_idem (l : List Char) :
    pyStripChars (pyStripChars l) = pyStripChars l := by
  unfold pyStripChars
  rw [helper_dropLead_dropTrail, helper_dropTrail_idem]

/-- On a payload whose stripped form carries no boundary fence markers,
`_clean_json_response` only strips whitespace. -/
theorem helper_clean_plain (l : List Char)
    (h1 : List.isPrefixOf "```".toList (pyStripChars l) = false)
    (h2 : List.isSuffixOf "```".toList (pyStripChars l) = false) :
    cleanChars l = pyStripChars l := by
  have h1' : List.isPrefixOf "```json".toList (pyStripChars l) = false := by
    by_contra hne
    have h := eq_true_of_ne_false hne
    have hp : "```json".toList <+: pyStripChars l := List.isPrefixOf_iff_prefix.mp h
    have hpp : "```".toList <+: pyStripChars l :=
      List.IsPrefix.trans (by decide) hp
    rw [List.isPrefixOf_iff_prefix.mpr hpp] at h1
    exact Bool.noConfusion h1
  unfold cleanChars
  simp only [h1, h1', h2, if_false, Bool.false_eq_true]
  exact helper_strip_idem l

/-- Stripping whitespace around a block guarded by non-whitespace boundary
characters recovers the block. -/
theorem helper_strip_guard (ws1 ws2 M : List Char) (c c' : Char)
    (hw1 : ∀ x ∈ ws1, isPyWS x = true) (hw2 : ∀ x ∈ ws2, isPyWS x = true)
    (hc : isPyWS c = false) (hc' : isPyWS c' = false) :
    pyStripChars (ws1 ++ (c :: (M ++ [c'])) ++ ws2) = c :: (M ++ [c']) := by
  unfold pyStripChars dropLeadWS dropTrailWS
  have e1 : ws1 ++ (c :: (M ++ [c'])) ++ ws2 = ws1 ++ (c :: (M ++ ([c'] ++ ws2))) := by
    simp
  rw [e1, helper_dropWhile_app ws1 _ hw1, helper_dropWhile_cons_false _ _ hc]
  have e2 : (c :: (M ++ ([c'] ++ ws2))).reverse = ws2.reverse ++ (c' :: (M.reverse ++ [c])) := by
    simp
  rw [e2, helper_dropWhile_app ws2.reverse _ (fun x hx => hw2 x (List.mem_reverse.mp hx)),
    helper_dropWhile_cons_false _ _ hc']
  simp

/-- A payload that does not begin with `json` cannot make the bare fence
look like the `json` fence. -/
theorem helper_json_guard (p : List Char)
    (h : List.isPrefixOf "json".toList p = false) :
    ¬ ("json".toList <+: p ++ "```".toList) := by
  intro hpre
  by_cases hlen : 4 ≤ p.length
  · have h2 : "json".toList <+: p :=
      List.prefix_of_prefix_length_le hpre (List.prefix_append p _) (by simpa using hlen)
    rw [List.isPrefixOf_iff_prefix.mpr h2] at h
    exact Bool.noConfusion h
  · have htake : "json".toList = (p ++ "```".toList).take 4 := by
      have := List.prefix_iff_eq_take.mp hpre
      simpa using this
    rw [List.take_append_eq_append_take, List.take_of_length_le (by omega)] at htake
    have hmem : ('`' : Char) ∈ "json".toList := by
      rw [htake]
      refine List.mem_append.mpr (Or.inr ?_)
      have h4 : ∃ k, 4 - p.length = k + 1 := ⟨3 - p.length, by omega⟩
      obtain ⟨k, hk⟩ := h4
      rw [hk]
      show ('`' : Char) ∈ List.take (k + 1) ('`' :: "``".toList)
      simp
    exact absurd hmem (by decide)

/-- C6 counterexample: for the payload `x```` ``` ```` (which itself ends
with a fence marker), normalizing the bare-fence-wrapped form yields
`x```` ``` ```` while normalizing the unwrapped payload yields `x` — the
two decode differently, refuting the claimed left-inverse law for arbitrary
payload strings. -/
theorem c6_counterexample :
    cleanChars ("```".toList ++ "x```".toList ++ "```".toList) = "x```".toList ∧
    cleanChars "x```".toList = "x".toList ∧
    cleanChars ("```".toList ++ "x```".toList ++ "```".toList) ≠ cleanChars "x```".toList := by
  exact ⟨by decide, by decide, by decide⟩

/-- C6 amended: fence-wrapping is cancelled by `_clean_json_response`
*provided* the payload carries no boundary fence markers of its own — its
stripped form neither starts nor ends with ```` ``` ````, and (for the bare
variant) the payload does not begin with the four characters `json`.  Under
those conditions both the ```` ```json ```` and the bare ```` ``` ````
wrapping, with any surrounding whitespace, normalize to exactly what the
unwrapped payload normalizes to. -/
theorem c6_fence_strip (p ws1 ws2 : List Char)
    (hw1 : ∀ c ∈ ws1, isPyWS c = true) (hw2 : ∀ c ∈ ws2, isPyWS c = true)
    (hpre : List.isPrefixOf "```".toList (pyStripChars p) = false)
    (hsuf : List.isSuffixOf "```".toList (pyStripChars p) = false)
    (hjson : List.isPrefixOf "json".toList p = false) :
    cleanChars (ws1 ++ ("```json".toList ++ p ++ "```".toList) ++ ws2) = cleanChars p ∧
    cleanChars (ws1 ++ ("```".toList ++ p ++ "```".toList) ++ ws2) = cleanChars p := by
  have hplain := helper_clean_plain p hpre hsuf
  constructor
  · have hshape : "```json".toList ++ p ++ "```".toList =
        '`' :: (("``json".toList ++ p ++ "``".toList) ++ ['`']) := by
      simp
    have hstrip : pyStripChars (ws1 ++ ("```json".toList ++ p ++ "```".toList) ++ ws2) =
        "```json".toList ++ p ++ "```".toList := by
      rw [hshape]
      exact helper_strip_guard ws1 ws2 _ '`' '`' hw1 hw2 (by decide) (by decide)
    have hLHS : cleanChars (ws1 ++ ("```json".toList ++ p ++ "```".toList) ++ ws2) =
        pyStripChars p := by
      have hpj : List.isPrefixOf "```json".toList ("```json".toList ++ p ++ "```".toList) = true := by
        rw [List.append_assoc]
        exact List.isPrefixOf_iff_prefix.mpr (List.prefix_append _ _)
      have hdrop : ("```json".toList ++ p ++ "```".toList).drop 7 = p ++ "```".toList := by
        rw [List.append_assoc]
        have h7 : ("```json".toList).length = 7 := by decide
        rw [show (7 : Nat) = ("```json".toList).length from h7.symm, List.drop_left]
      have hsj : List.isSuffixOf "```".toList (p ++ "```".toList) = true :=
        List.isSuffixOf_iff_suffix.mpr (List.suffix_append _ _)
      have htake : (p ++ "```".toList).take ((p ++ "```".toList).length - 3) = p := by
        have : (p ++ "```".toList).length - 3 = p.length := by simp
        rw [this]
        simp
      unfold cleanChars
      rw [hstrip]
      simp only [hpj, if_true]
      rw [hdrop]
      simp only [hsj, if_true]
      rw [htake]
    rw [hLHS, hplain]
  · have hshape : "```".toList ++ p ++ "```".toList =
        '`' :: (("``".toList ++ p ++ "``".toList) ++ ['`']) := by
      simp
    have hstrip : pyStripChars (ws1 ++ ("```".toList ++ p ++ "```".toList) ++ ws2) =
        "```".toList ++ p ++ "```".toList := by
      rw [hshape]
      exact helper_strip_guard ws1 ws2 _ '`' '`' hw1 hw2 (by decide) (by decide)
    have hpj : List.isPrefixOf "```json".toList ("```".toList ++ p ++ "```".toList) = false := by
      by_contra hne
      have h := eq_true_of_ne_false hne
      have hp := List.isPrefixOf_iff_prefix.mp h
      rw [List.append_assoc] at hp
      have hsplit : "```json".toList = "```".toList ++ "json".toList := by decide
      rw [hsplit] at hp
      have := (List.prefix_append_right_inj "```".toList).mp hp
      exact helper_json_guard p hjson this
    have hpb : List.isPrefixOf "```".toList ("```".toList ++ p ++ "```".toList) = true := by
      rw [List.append_assoc]
      exact List.isPrefixOf_iff_prefix.mpr (List.prefix_append _ _)
    have hdrop : ("```".toList ++ p ++ "```".toList).drop 3 = p ++ "```".toList := by
      rw [List.append_assoc]
      have h3 : ("```".toList).length = 3 := by decide
      rw [show (3 : Nat) = ("```".toList).length from h3.symm, List.drop_left]
    have hsj : List.isSuffixOf "```".toList (p ++ "```".toList) = true :=
      List.isSuffixOf_iff_suffix.mpr (List.suffix_append _ _)
    have htake : (p ++ "```".toList).take ((p ++ "```".toList).length - 3) = p := by
      have : (p ++ "```".toList).length - 3 = p.length := by simp
      rw [this]
      simp
    have hLHS : cleanChars (ws1 ++ ("```".toList ++ p ++ "```".toList) ++ ws2) =
        pyStripChars p := by
      unfold cleanChars
      rw [hstrip]
      simp only [hpj, hpb, if_true, Bool.false_eq_true, if_false]
      rw [hdrop]
      simp only [hsj, if_true]
      rw [htake]
    rw [hLHS, hplain]

/-- C6 witness: the amended statement at the payload `hello` with newline
and space padding. -/
theorem c6_witness :
    cleanChars (['\n'] ++ ("```json".toList ++ "hello".toList ++ "```".toList) ++ [' ']) =
      cleanChars "hello".toList ∧
    cleanChars (['\n'] ++ ("```".toList ++ "hello".toList ++ "```".toList) ++ [' ']) =
      cleanChars "hello".toList :=
  c6_fence_strip "hello".toList ['\n'] [' '] (by decide) (by decide) (by decide)
    (by decide) (by decide)

/-! ### C8 — data response rendering

In `_format_data_response`, the `table` branch iterates the items and
renders only those that are dicts (`isinstance(item, dict)`); non-dict items
are skipped, not bulleted.  The claim's fallback — "when format is `table`
but not every item is a mapping, the output is the bulleted list" — does not
match the code. -/

/-- C8 counterexample: with `format == "table"` and the single non-mapping
item `"a"`, the rendering is empty — the item is skipped — not the bulleted
list `- a` the claim requires for a `table` request whose items are not all
mappings. -/
theorem c8_counterexample :
    formatDataResponse
        (.obj [("summary", .str ""), ("items", .arr [.str "a"]),
               ("format", .str "table")]) = .ok "" ∧
    ("" : String) ≠ "- a" := by
  exact ⟨rfl, by decide⟩

/-- Table rendering of one item: key/value lines for a dict, nothing for
anything else. -/
def tableRender (it : JVal) : List String :=
  match it with
  | .obj ikvs => ikvs.map (fun kv => "**" ++ kv.1 ++ "**: " ++ pyStr kv.2) ++ [""]
  | _ => []

/-- A `flatMap` whose function vanishes off a predicate can filter first. -/
theorem helper_flatMap_filter (l : List JVal) (f : JVal → List String)
    (h : ∀ x, isObjB x = false → f x = []) :
    l.flatMap f = (l.filter isObjB).flatMap f := by
  induction l with
  | nil => rfl
  | cons a t ih =>
      by_cases ha : isObjB a = true
      · simp [List.filter_cons, ha, ih]
      · have ha' : isObjB a = false := eq_false_of_ne_true ha
        simp [List.filter_cons, ha', h a ha', ih]

/-- C8 amended: when `format` is `"table"`, each mapping item renders as
`**key**: value` lines followed by a blank line and non-mapping items are
skipped entirely — whether or not every item is a mapping.  Consequently a
`table` rendering equals the `table` rendering of just the mapping items.
(Bulleted rendering applies for `format == "list"` and for unrecognized
formats, per the default branch of `formatDataResponse`.) -/
theorem c8_table_format (summary : JVal) (l : List JVal) :
    (formatDataResponse
        (.obj [("summary", summary), ("items", .arr l), ("format", .str "table")]) =
      .ok (String.intercalate "\n"
        ((if pyTruthy summary then ["## 📋 " ++ pyStr summary, ""] else []) ++
          l.flatMap tableRender))) ∧
    (formatDataResponse
        (.obj [("summary", summary), ("items", .arr l), ("format", .str "table")]) =
      formatDataResponse
        (.obj [("summary", summary), ("items", .arr (l.filter isObjB)),
               ("format", .str "table")])) := by
  have hbl : (JVal.str "table" == JVal.str "list") = false := by decide
  have hbt : (JVal.str "table" == JVal.str "table") = true := by decide
  have hren : ∀ x, isObjB x = false → tableRender x = [] := by
    intro x hx
    cases x <;> first | rfl | simp [isObjB] at hx
  have key : ∀ (m : List JVal),
      formatDataResponse
          (.obj [("summary", summary), ("items", .arr m), ("format", .str "table")]) =
        .ok (String.intercalate "\n"
          ((if pyTruthy summary then ["## 📋 " ++ pyStr summary, ""] else []) ++
            m.flatMap tableRender)) := by
    intro m
    rcases m with _ | ⟨a, t⟩
    · simp [formatDataResponse, jLookup, List.find?, pyTruthy]
    · simp [formatDataResponse, jLookup, List.find?, pyTruthy, pyIter, hbl, hbt,
        ← tableRender.eq_def]
  refine ⟨key l, ?_⟩
  rw [key l, key (l.filter isObjB), helper_flatMap_filter l tableRender hren]

/-! ### C3 — step budget

A backend whose every reply parses to a `tool_call` for a registered tool
keeps the loop in the dispatch branch; the loop body runs exactly once per
budget unit and the final return names the configured budget. -/

/-- Does the value parse as a `tool_call` object whose `name` is a
registered tool?  (The shape every reply of C3's stub backend has.) -/
def isRegToolCallB (names : List String) (v : JVal) : Bool :=
  match v with
  | .obj kvs =>
      match jLookup kvs "tool_call" with
      | some (.obj ti) =>
          match (jLookup ti "name").getD .null with
          | .str t => names.contains t
          | _ => false
      | _ => false
  | _ => false

/-- A registered `tool_call` reply always takes the dispatch-and-continue
branch of the classification, whatever the dispatch outcome. -/
theorem helper_stepAct_toolcall (reg : Registry) (v : JVal)
    (h : isRegToolCallB (listToolKeys reg) v = true) :
    ∃ rec disp, stepAct reg v = .next rec disp := by
  rcases v with _ | b | ⟨m, e⟩ | s | l | kvs
  case null => simp [isRegToolCallB] at h
  case bool => simp [isRegToolCallB] at h
  case num => simp [isRegToolCallB] at h
  case str => simp [isRegToolCallB] at h
  case arr => simp [isRegToolCallB] at h
  case obj =>
      rcases htc : jLookup kvs "tool_call" with _ | ti
      · simp [isRegToolCallB, htc] at h
      rcases ti with _ | b | ⟨m, e⟩ | s | l | tikvs
      case null => simp [isRegToolCallB, htc] at h
      case bool => simp [isRegToolCallB, htc] at h
      case num => simp [isRegToolCallB, htc] at h
      case str => simp [isRegToolCallB, htc] at h
      case arr => simp [isRegToolCallB, htc] at h
      case obj =>
          rcases hname : (jLookup tikvs "name").getD JVal.null with _ | b | ⟨m, e⟩ | t | l | o
          case null => simp [isRegToolCallB, htc, hname] at h
          case bool => simp [isRegToolCallB, htc, hname] at h
          case num => simp [isRegToolCallB, htc, hname] at h
          case arr => simp [isRegToolCallB, htc, hname] at h
          case obj => simp [isRegToolCallB, htc, hname] at h
          case str =>
              have hc : (listToolKeys reg).contains t = true := by
                simpa [isRegToolCallB, htc, hname] using h
              have hm : t ∈ listToolKeys reg := by simpa using hc
              rcases hinv : invokeLocal reg t ((jLookup tikvs "args").getD (.obj [])) with rv | ev
              · exact ⟨handleToolError t ((jLookup tikvs "args").getD (.obj [])) rv,
                  (t, (jLookup tikvs "args").getD (.obj [])), by
                  simp [stepAct, pyContains, pySubscript, pyGet, htc, hname, hinv, hm]⟩
              · exact ⟨toolResultRecord t ((jLookup tikvs "args").getD (.obj [])) ev,
                  (t, (jLookup tikvs "args").getD (.obj [])), by
                  simp [stepAct, pyContains, pySubscript, pyGet, htc, hname, hinv, hm]⟩

/-- Budget induction: with every reply a registered `tool_call`, the loop
consumes its whole fuel, sending one backend message per unit, and ends with
the budget message. -/
theorem helper_budget_loop (reg : Registry) (backend : Backend) (q : String)
    (N : Nat)
    (H : ∀ k um, ∃ r, backend k um = .ok r ∧
      ∃ v, jsonLoadsS (cleanS r) = .ok v ∧ isRegToolCallB (listToolKeys reg) v = true) :
    ∀ fuel k ctx um,
      (processLoop reg backend q N fuel k ctx um).result = .ok (budgetMsg N) ∧
      (processLoop reg backend q N fuel k ctx um).sent.length = fuel := by
  intro fuel
  induction fuel with
  | zero => intro k ctx um; exact ⟨rfl, rfl⟩
  | succ n ih =>
      intro k ctx um
      obtain ⟨r, hr, v, hv, hreg⟩ := H k um
      obtain ⟨rec, disp, hstep⟩ := helper_stepAct_toolcall reg v hreg
      have := ih (k + 1) (ctx ++ [rec]) (contextUserMsg q (ctx ++ [rec]))
      simp only [processLoop, hr, hv, hstep]
      exact ⟨this.1, by simp [this.2]⟩

/-- C3 confirmed: for every budget `N ≥ 1` and every backend whose replies
are always valid `tool_call`s for registered tools, `process_input` sends
exactly `N` messages to the backend and returns the step-budget message
naming `N`. -/
theorem c3_step_budget (reg : Registry) (backend : Backend) (q : String)
    (N : Nat) (hN : 1 ≤ N)
    (H : ∀ k um, ∃ r, backend k um = .ok r ∧
      ∃ v, jsonLoadsS (cleanS r) = .ok v ∧ isRegToolCallB (listToolKeys reg) v = true) :
    (processInput reg backend q N).result = .ok (budgetMsg N) ∧
    (processInput reg backend q N).sent.length = N := by
  unfold processInput
  exact helper_budget_loop reg backend q N H N 0 [] (initialUserMsg q)

/-- C3 witness: a concrete registry and a stub backend that always replies
with a `get_pods` tool call; with budget 2 the run makes two backend calls
and ends with the budget message. -/
theorem c3_witness :
    (processInput [("get_pods", fun _ => .ok (.arr []))]
        (fun _ _ => .ok "\x7b\"tool_call\": \x7b\"name\": \"get_pods\", \"args\": \x7b\x7d\x7d\x7d")
        "list pods" 2).result = .ok (budgetMsg 2) ∧
    (processInput [("get_pods", fun _ => .ok (.arr []))]
        (fun _ _ => .ok "\x7b\"tool_call\": \x7b\"name\": \"get_pods\", \"args\": \x7b\x7d\x7d\x7d")
        "list pods" 2).sent.length = 2 :=
  c3_step_budget [("get_pods", fun _ => .ok (.arr []))]
    (fun _ _ => .ok "\x7b\"tool_call\": \x7b\"name\": \"get_pods\", \"args\": \x7b\x7d\x7d\x7d")
    "list pods" 2 (by decide)
    (fun _ _ => ⟨"\x7b\"tool_call\": \x7b\"name\": \"get_pods\", \"args\": \x7b\x7d\x7d\x7d", rfl,
      .obj [("tool_call", .obj [("name", .str "get_pods"), ("args", .obj [])])], rfl, rfl⟩)

/-! ### C1 — classification of parsed replies

`process_input` classifies with an `if/elif/elif/else` chain: `tool_call`
first, then `data_response`, then `final_response`.  A reply carrying several
recognized keys is therefore resolved by that priority — only a reply with
*none* of the three keys reaches the unexpected-format terminal failure. -/

/-- C1 counterexample: a reply containing both `tool_call` (for the
registered tool `get_pods`) and `final_response` is *not* an
"unexpected format" terminal failure: the tool is dispatched (key priority
resolves the conflict) and, with budget 1, the run ends with the budget
message — not with the unexpected-format message the claim requires for a
multi-key reply. -/
theorem c1_counterexample :
    (processInput [("get_pods", fun _ => .ok (.arr []))]
        (fun _ _ => .ok "\x7b\"tool_call\": \x7b\"name\": \"get_pods\", \"args\": \x7b\x7d\x7d, \"final_response\": \x7b\"analysis\": \"a\"\x7d\x7d")
        "q" 1).dispatched = [("get_pods", .obj [])] ∧
    (processInput [("get_pods", fun _ => .ok (.arr []))]
        (fun _ _ => .ok "\x7b\"tool_call\": \x7b\"name\": \"get_pods\", \"args\": \x7b\x7d\x7d, \"final_response\": \x7b\"analysis\": \"a\"\x7d\x7d")
        "q" 1).result = .ok (budgetMsg 1) ∧
    budgetMsg 1 ≠ unexpectedFmtMsg
      (.obj [("tool_call", .obj [("name", .str "get_pods"), ("args", .obj [])]),
             ("final_response", .obj [("analysis", .str "a")])]) := by
  refine ⟨rfl, rfl, by decide⟩

/-- C1 amended: classification is by key priority — the presence of
`tool_call` alone determines the action (any other keys are ignored), then
`data_response`, then `final_response` — and only a parsed reply containing
*none* of the three recognized keys is the "unexpected format" terminal
failure, which echoes the parsed structure and ends the run on its first
step with no dispatch. -/
theorem c1_priority_classification (reg : Registry) :
    (∀ (backend : Backend) (q : String) (N : Nat), 1 ≤ N →
      ∀ (r : String) (kvs : List (String × JVal)),
        backend 0 (initialUserMsg q) = .ok r →
        jsonLoadsS (cleanS r) = .ok (.obj kvs) →
        jLookup kvs "tool_call" = none →
        jLookup kvs "data_response" = none →
        jLookup kvs "final_response" = none →
        (processInput reg backend q N).result = .ok (unexpectedFmtMsg (.obj kvs)) ∧
        (processInput reg backend q N).sent = [initialUserMsg q] ∧
        (processInput reg backend q N).dispatched = []) ∧
    (∀ (kvs : List (String × JVal)) (ti : JVal),
      jLookup kvs "tool_call" = some ti →
      stepAct reg (.obj kvs) = stepAct reg (.obj [("tool_call", ti)])) ∧
    (∀ (kvs : List (String × JVal)) (d : JVal),
      jLookup kvs "tool_call" = none →
      jLookup kvs "data_response" = some d →
      stepAct reg (.obj kvs) = stepAct reg (.obj [("data_response", d)])) ∧
    (∀ (kvs : List (String × JVal)) (f : JVal),
      jLookup kvs "tool_call" = none →
      jLookup kvs "data_response" = none →
      jLookup kvs "final_response" = some f →
      stepAct reg (.obj kvs) = stepAct reg (.obj [("final_response", f)])) := by
  refine ⟨?_, ?_, ?_, ?_⟩
  · intro backend q N hN r kvs hr hv h1 h2 h3
    obtain ⟨M, rfl⟩ : ∃ M, N = M + 1 := ⟨N - 1, by omega⟩
    unfold processInput
    simp only [processLoop, hr, hv]
    have hstep : stepAct reg (.obj kvs) = .done (unexpectedFmtMsg (.obj kvs)) := by
      simp [stepAct, pyContains, h1, h2, h3]
    simp [hstep]
  · intro kvs ti htc
    have hs : jLookup [("tool_call", ti)] "tool_call" = some ti := by
      simp [jLookup, List.find?]
    simp only [stepAct, pyContains, pySubscript, htc, hs, Option.isSome]
  · intro kvs d h1 h2
    have hs1 : jLookup [("data_response", d)] "tool_call" = none := by
      simp [jLookup, List.find?]
    have hs2 : jLookup [("data_response", d)] "data_response" = some d := by
      simp [jLookup, List.find?]
    simp only [stepAct, pyContains, pySubscript, h1, h2, hs1, hs2, Option.isSome]
  · intro kvs f h1 h2 h3
    have hs1 : jLookup [("final_response", f)] "tool_call" = none := by
      simp [jLookup, List.find?]
    have hs2 : jLookup [("final_response", f)] "data_response" = none := by
      simp [jLookup, List.find?]
    have hs3 : jLookup [("final_response", f)] "final_response" = some f := by
      simp [jLookup, List.find?]
    simp only [stepAct, pyContains, pySubscript, h1, h2, h3, hs1, hs2, hs3, Option.isSome]

/-- C1 witness: the zero-recognized-keys branch at a concrete reply
`{"foo": "bar"}`, and the priority branch at a two-key reply. -/
theorem c1_witness :
    (processInput [] (fun _ _ => .ok "\x7b\"foo\": \"bar\"\x7d") "q" 6).result =
      .ok (unexpectedFmtMsg (.obj [("foo", .str "bar")])) ∧
    stepAct []
        (.obj [("tool_call", .null), ("final_response", .null)]) =
      stepAct [] (.obj [("tool_call", JVal.null)]) :=
  ⟨((c1_priority_classification []).1 (fun _ _ => .ok "\x7b\"foo\": \"bar\"\x7d") "q" 6
      (by decide) "\x7b\"foo\": \"bar\"\x7d" [("foo", .str "bar")] rfl rfl rfl rfl rfl).1,
    (c1_priority_classification []).2.1 [("tool_call", .null), ("final_response", .null)]
      JVal.null rfl⟩

/-! ### C4 — tool failure is recoverable

A dispatch failure is caught, converted by `_handle_tool_error` into a
context record, and the loop proceeds to the next step with the enlarged
context. -/

/-- C4 confirmed: when step 1's reply is a `tool_call` for a registered tool
whose dispatch fails and step 2's reply is a `final_response`,
`process_input` returns the rendered step-2 final response; the user message
of the second backend call carries a conversation holding exactly the one
error record, whose `tool` field is step 1's tool name. -/
theorem c4_tool_error_recovery (reg : Registry) (backend : Backend)
    (q t : String) (args resp : JVal) (e r0 r1 out : String) (N : Nat)
    (hN : 2 ≤ N)
    (hreg : (listToolKeys reg).contains t = true)
    (hr0 : backend 0 (initialUserMsg q) = .ok r0)
    (hv0 : jsonLoadsS (cleanS r0) =
      .ok (.obj [("tool_call", .obj [("name", .str t), ("args", args)])]))
    (hinv : invokeLocal reg t args = .error e)
    (hr1 : backend 1 (contextUserMsg q [handleToolError t args e]) = .ok r1)
    (hv1 : jsonLoadsS (cleanS r1) = .ok (.obj [("final_response", resp)]))
    (hfmt : formatFinalResponse resp = .ok out) :
    (processInput reg backend q N).result = .ok out ∧
    (processInput reg backend q N).sent =
      [initialUserMsg q, contextUserMsg q [handleToolError t args e]] ∧
    (processInput reg backend q N).dispatched = [(t, args)] ∧
    pySubscript (handleToolError t args e) "tool" = .ok (.str t) := by
  obtain ⟨M, rfl⟩ : ∃ M, N = M + 2 := ⟨N - 2, by omega⟩
  have hm : t ∈ listToolKeys reg := by simpa using hreg
  have hstep1 : stepAct reg
      (.obj [("tool_call", .obj [("name", .str t), ("args", args)])]) =
      .next (handleToolError t args e) (t, args) := by
    simp [stepAct, pyContains, pySubscript, pyGet, jLookup, List.find?, hm, hinv]
  have hstep2 : stepAct reg (.obj [("final_response", resp)]) = .done out := by
    simp [stepAct, pyContains, pySubscript, jLookup, List.find?, hfmt]
  have htool : pySubscript (handleToolError t args e) "tool" = .ok (.str t) := by
    unfold handleToolError
    by_cases hp : strContains "missing 1 required positional argument" e = true
    · simp [hp, pySubscript, jLookup, List.find?]
    · simp [eq_false_of_ne_true hp, pySubscript, jLookup, List.find?]
  unfold processInput
  simp only [processLoop, hr0, hv0, hstep1, List.nil_append, Nat.zero_add, hr1, hv1, hstep2]
  exact ⟨trivial, trivial, trivial, htool⟩

/-- C4 witness: concrete two-step run — `get_pods` raises `boom` on step 1,
step 2 returns a final response, and the run renders it. -/
theorem c4_witness :
    (processInput [("get_pods", fun _ => .error "boom")]
        (fun k _ =>
          if k == 0 then
            .ok "\x7b\"tool_call\": \x7b\"name\": \"get_pods\", \"args\": \x7b\x7d\x7d\x7d"
          else
            .ok "\x7b\"final_response\": \x7b\"analysis\": \"ok\", \"recommendation\": \"fix\"\x7d\x7d")
        "why" 6).result =
      .ok "## 🔍 Analysis\nok\n\n## 💡 Recommendation\nfix\n\n*Confidence: 0%*" ∧
    (processInput [("get_pods", fun _ => .error "boom")]
        (fun k _ =>
          if k == 0 then
            .ok "\x7b\"tool_call\": \x7b\"name\": \"get_pods\", \"args\": \x7b\x7d\x7d\x7d"
          else
            .ok "\x7b\"final_response\": \x7b\"analysis\": \"ok\", \"recommendation\": \"fix\"\x7d\x7d")
        "why" 6).dispatched = [("get_pods", .obj [])] :=
  by
  have h := c4_tool_error_recovery [("get_pods", fun _ => .error "boom")]
    (fun k _ =>
      if k == 0 then
        .ok "\x7b\"tool_call\": \x7b\"name\": \"get_pods\", \"args\": \x7b\x7d\x7d\x7d"
      else
        .ok "\x7b\"final_response\": \x7b\"analysis\": \"ok\", \"recommendation\": \"fix\"\x7d\x7d")
    "why" "get_pods" (.obj []) (.obj [("analysis", .str "ok"), ("recommendation", .str "fix")])
    "boom"
    "\x7b\"tool_call\": \x7b\"name\": \"get_pods\", \"args\": \x7b\x7d\x7d\x7d"
    "\x7b\"final_response\": \x7b\"analysis\": \"ok\", \"recommendation\": \"fix\"\x7d\x7d"
    "## 🔍 Analysis\nok\n\n## 💡 Recommendation\nfix\n\n*Confidence: 0%*"
    6 (by decide) (by decide) rfl rfl rfl rfl rfl rfl
  exact ⟨h.1, h.2.2.1⟩

/-! ### C7 — unknown tool names -/

/-- A name absent from the key list is not found by registry lookup. -/
theorem helper_regFind_none (reg : Registry) (n : String)
    (h : (listToolKeys reg).contains n = false) : regFind reg n = none := by
  induction reg with
  | nil => rfl
  | cons hd tl ih =>
      obtain ⟨k, f⟩ := hd
      have h1 : (n == k) = false := by
        simp [listToolKeys] at h
        exact beq_eq_false_iff_ne.mpr (fun e => h.1 e)
      have h2 : (listToolKeys tl).contains n = false := by
        simp [listToolKeys] at h ⊢
        exact fun x hx => h.2 x hx
      have hk : (k == n) = false :=
        beq_eq_false_iff_ne.mpr (fun e => (beq_eq_false_iff_ne.mp h1) e.symm)
      simp [regFind, List.find?, hk]
      have := ih h2
      simpa [regFind] using this

/-- C7 confirmed: a `tool_call` whose requested name is not registered ends
the run on that very step with the message naming the requested tool and
listing every registered name (the message is literally built from the full
key list), no dispatch is attempted, and `invoke` on any unregistered name
yields the `KeyError("tool not found")` — never any fallback execution. -/
theorem c7_unknown_tool (reg : Registry) (backend : Backend) (q : String)
    (N : Nat) (hN : 1 ≤ N) (r : String) (kvs tikvs : List (String × JVal)) (t : String)
    (hr : backend 0 (initialUserMsg q) = .ok r)
    (hv : jsonLoadsS (cleanS r) = .ok (.obj kvs))
    (htc : jLookup kvs "tool_call" = some (.obj tikvs))
    (hname : (jLookup tikvs "name").getD .null = .str t)
    (hunk : (listToolKeys reg).contains t = false) :
    (processInput reg backend q N).result =
      .ok (unknownToolMsg (.str t) (listToolKeys reg)) ∧
    (processInput reg backend q N).sent = [initialUserMsg q] ∧
    (processInput reg backend q N).dispatched = [] ∧
    (∀ (reg' : Registry) (n : String) (a : JVal),
      (listToolKeys reg').contains n = false →
      invokeLocal reg' n a = .error "\x27tool not found\x27") := by
  obtain ⟨M, rfl⟩ : ∃ M, N = M + 1 := ⟨N - 1, by omega⟩
  have hnm : ¬ (t ∈ listToolKeys reg) := by
    intro hmem
    have : (listToolKeys reg).contains t = true := by simpa using hmem
    rw [this] at hunk
    exact Bool.noConfusion hunk
  have hstep : stepAct reg (.obj kvs) =
      .done (unknownToolMsg (.str t) (listToolKeys reg)) := by
    simp [stepAct, pyContains, pySubscript, pyGet, htc, hname, hnm]
  unfold processInput
  simp only [processLoop, hr, hv, hstep]
  refine ⟨trivial, trivial, trivial, ?_⟩
  intro reg' n a hc
  simp [invokeLocal, helper_regFind_none reg' n hc]

/-- C7 witness: requesting `nonexistent_tool` against a registry holding
only `get_pods` produces the terminal unknown-tool message and no dispatch. -/
theorem c7_witness :
    (processInput [("get_pods", fun _ => .ok (.arr []))]
        (fun _ _ => .ok "\x7b\"tool_call\": \x7b\"name\": \"nonexistent_tool\"\x7d\x7d")
        "q" 6).result =
      .ok (unknownToolMsg (.str "nonexistent_tool")
        (listToolKeys [("get_pods", fun _ => .ok (.arr []))])) ∧
    (processInput [("get_pods", fun _ => .ok (.arr []))]
        (fun _ _ => .ok "\x7b\"tool_call\": \x7b\"name\": \"nonexistent_tool\"\x7d\x7d")
        "q" 6).dispatched = [] :=
  by
  have h := c7_unknown_tool [("get_pods", fun _ => .ok (.arr []))]
    (fun _ _ => .ok "\x7b\"tool_call\": \x7b\"name\": \"nonexistent_tool\"\x7d\x7d")
    "q" 6 (by decide)
    "\x7b\"tool_call\": \x7b\"name\": \"nonexistent_tool\"\x7d\x7d"
    [("tool_call", .obj [("name", .str "nonexistent_tool")])]
    [("name", .str "nonexistent_tool")] "nonexistent_tool"
    rfl rfl rfl rfl (by decide)
  exact ⟨h.1, h.2.2.1⟩

/-! ### C10 — defaults for omitted `tool_call` fields

`tool_info.get("args", {})` supplies an empty mapping; `tool_info.get("name")`
supplies `None`, which fails the registry membership test (no string key
equals `None`) and lands on the unknown-tool terminal path with the name
rendered as `None`. -/

/-- C10 confirmed: a `tool_call` object without an `args` key dispatches the
tool with the empty argument mapping, and a `tool_call` object without a
`name` key takes the unknown-tool terminal path — reporting `None` against
the full list of registered names — rather than raising or being treated as
a shape error. -/
theorem c10_defaults (reg : Registry) (backend : Backend) (q : String)
    (N : Nat) (hN : 1 ≤ N) :
    (∀ (r t : String) (tikvs : List (String × JVal)),
      backend 0 (initialUserMsg q) = .ok r →
      jsonLoadsS (cleanS r) = .ok (.obj [("tool_call", .obj tikvs)]) →
      jLookup tikvs "name" = some (.str t) →
      jLookup tikvs "args" = none →
      (listToolKeys reg).contains t = true →
      (processInput reg backend q N).dispatched.head? = some (t, .obj [])) ∧
    (∀ (r : String) (tikvs : List (String × JVal)),
      backend 0 (initialUserMsg q) = .ok r →
      jsonLoadsS (cleanS r) = .ok (.obj [("tool_call", .obj tikvs)]) →
      jLookup tikvs "name" = none →
      (processInput reg backend q N).result =
        .ok (unknownToolMsg .null (listToolKeys reg)) ∧
      (processInput reg backend q N).dispatched = []) := by
  obtain ⟨M, rfl⟩ : ∃ M, N = M + 1 := ⟨N - 1, by omega⟩
  constructor
  · intro r t tikvs hr hv hname hargs hreg
    have hm : t ∈ listToolKeys reg := by simpa using hreg
    have htc : jLookup [("tool_call", JVal.obj tikvs)] "tool_call" =
        some (.obj tikvs) := by simp [jLookup, List.find?]
    rcases hinv : invokeLocal reg t (.obj []) with ev | rv
    · have hstep : stepAct reg (.obj [("tool_call", .obj tikvs)]) =
          .next (handleToolError t (.obj []) ev) (t, .obj []) := by
        simp [stepAct, pyContains, pySubscript, pyGet, htc, hname, hargs, hm, hinv]
      unfold processInput
      simp [processLoop, hr, hv, hstep]
    · have hstep : stepAct reg (.obj [("tool_call", .obj tikvs)]) =
          .next (toolResultRecord t (.obj []) rv) (t, .obj []) := by
        simp [stepAct, pyContains, pySubscript, pyGet, htc, hname, hargs, hm, hinv]
      unfold processInput
      simp [processLoop, hr, hv, hstep]
  · intro r tikvs hr hv hname
    have htc : jLookup [("tool_call", JVal.obj tikvs)] "tool_call" =
        some (.obj tikvs) := by simp [jLookup, List.find?]
    have hstep : stepAct reg (.obj [("tool_call", .obj tikvs)]) =
        .done (unknownToolMsg .null (listToolKeys reg)) := by
      simp [stepAct, pyContains, pySubscript, pyGet, htc, hname]
    unfold processInput
    simp [processLoop, hr, hv, hstep]

/-- C10 witness: omitting `args` dispatches `get_pods` with the empty mapping; omitting
`name` reports unknown tool `None` with the registered names listed. -/
theorem c10_witness :
    (processInput [("get_pods", fun _ => .ok (.arr []))]
        (fun _ _ => .ok "\x7b\"tool_call\": \x7b\"name\": \"get_pods\"\x7d\x7d")
        "q" 6).dispatched.head? = some ("get_pods", .obj []) ∧
    (processInput [("get_pods", fun _ => .ok (.arr []))]
        (fun _ _ => .ok "\x7b\"tool_call\": \x7b\x7d\x7d")
        "q" 6).result =
      .ok (unknownToolMsg .null (listToolKeys [("get_pods", fun _ => .ok (.arr []))])) :=
  ⟨(c10_defaults [("get_pods", fun _ => .ok (.arr []))]
      (fun _ _ => .ok "\x7b\"tool_call\": \x7b\"name\": \"get_pods\"\x7d\x7d") "q" 6
      (by decide)).1
    "\x7b\"tool_call\": \x7b\"name\": \"get_pods\"\x7d\x7d" "get_pods"
    [("name", .str "get_pods")] rfl rfl rfl rfl (by decide),
   ((c10_defaults [("get_pods", fun _ => .ok (.arr []))]
      (fun _ _ => .ok "\x7b\"tool_call\": \x7b\x7d\x7d") "q" 6 (by decide)).2
    "\x7b\"tool_call\": \x7b\x7d\x7d" [] rfl rfl rfl).1⟩

/-! ### C9 — exception safety of `process_input`

`process_input` guards the backend call (`try/except`), the JSON decode
(`try/except json.JSONDecodeError`) and the dispatch (`try/except Exception`)
— but nothing else.  The membership test `"tool_call" in parsed` raises
`TypeError` on a non-container parse (e.g. the valid JSON text `5`), and the
`.get`/iteration/format operations on unexpectedly-typed payloads raise as
well, all escaping to the caller. -/

/-- C9 counterexample: the backend reply `5` is valid JSON, so the decode
guard passes, and the membership test `"tool_call" in 5` raises an uncaught
`TypeError` — `process_input` does not return a string to its caller. -/
theorem c9_counterexample :
    (processInput [] (fun _ _ => .ok "5") "q" 6).result =
      .error "argument of type \x27int\x27 is not iterable" := by
  rfl

/-- Can the value be iterated (`pyIter` succeeds)? -/
def pyIterOkB : JVal → Bool
  | .arr _ => true
  | .str _ => true
  | .obj _ => true
  | _ => false

/-- Shape condition on a `tool_call` payload under which the tool branch
cannot raise: the payload is a mapping and its `name` (defaulted to `None`)
is hashable (not a list/dict). -/
def safeToolPayload : JVal → Bool
  | .obj tikvs =>
      match (jLookup tikvs "name").getD .null with
      | .arr _ => false
      | .obj _ => false
      | _ => true
  | _ => false

/-- Shape condition on a `data_response` payload under which rendering
cannot raise: a mapping whose `items` (defaulted to `[]`) is iterable
whenever it is truthy. -/
def safeDataPayload : JVal → Bool
  | .obj kvs =>
      !pyTruthy ((jLookup kvs "items").getD (.arr [])) ||
        pyIterOkB ((jLookup kvs "items").getD (.arr []))
  | _ => false

/-- Shape condition on a `final_response` payload under which rendering
cannot raise: a mapping with string analysis/recommendation (defaults
included), string `yaml` when truthy, iterable `post_checks` when truthy,
and numeric (or boolean) confidence when present. -/
def safeFinalPayload : JVal → Bool
  | .obj kvs =>
      isStrB ((jLookup kvs "analysis").getD (.str "N/A")) &&
      isStrB ((jLookup kvs "recommendation").getD (.str "N/A")) &&
      (!pyTruthy ((jLookup kvs "yaml").getD .null) ||
        isStrB ((jLookup kvs "yaml").getD .null)) &&
      (!pyTruthy ((jLookup kvs "post_checks").getD .null) ||
        pyIterOkB ((jLookup kvs "post_checks").getD .null)) &&
      (match (jLookup kvs "confidence").getD (.num 0 1) with
        | .num _ _ => true
        | .bool _ => true
        | _ => false)
  | _ => false

/-- A parsed reply `process_input` can classify and act on without raising:
a JSON object whose first matching recognized key carries a payload of the
safe shape (a reply with no recognized key is always safe — it just reports
the unexpected format). -/
def goodParsed : JVal → Bool
  | .obj kvs =>
      match jLookup kvs "tool_call" with
      | some ti => safeToolPayload ti
      | none =>
          match jLookup kvs "data_response" with
          | some d => safeDataPayload d
          | none =>
              match jLookup kvs "final_response" with
              | some f => safeFinalPayload f
              | none => true
  | _ => false

/-- An iterable value iterates successfully. -/
theorem helper_pyIter_ok (v : JVal) (h : pyIterOkB v = true) :
    ∃ l, pyIter v = .ok l := by
  cases v <;> first | exact ⟨_, rfl⟩ | simp [pyIterOkB] at h

/-- An `Except` that tests `isOk` carries a success value. -/
theorem helper_exists_of_isOk (x : Except String String) (h : x.isOk = true) :
    ∃ s, x = .ok s := by
  cases x with
  | error e => simp [Except.isOk, Except.toBool] at h
  | ok v => exact ⟨v, rfl⟩

/-- A safe data payload renders without raising. -/
theorem helper_formatData_ok (resp : JVal) (h : safeDataPayload resp = true) :
    ∃ s, formatDataResponse resp = .ok s := by
  rcases resp with _ | b | ⟨m, e⟩ | s | l | kvs
  · simp [safeDataPayload] at h
  · simp [safeDataPayload] at h
  · simp [safeDataPayload] at h
  · simp [safeDataPayload] at h
  · simp [safeDataPayload] at h
  · apply helper_exists_of_isOk
    by_cases ht : pyTruthy ((jLookup kvs "items").getD (.arr [])) = true
    · have hit : pyIterOkB ((jLookup kvs "items").getD (.arr [])) = true := by
        simp [safeDataPayload, ht] at h
        exact h
      obtain ⟨its, hx⟩ := helper_pyIter_ok _ hit
      simp only [formatDataResponse, ht, if_true, hx]
      rfl
    · have ht' := eq_false_of_ne_true ht
      simp only [formatDataResponse, ht', Bool.false_eq_true, if_false]
      rfl

/-- A value satisfying `isStrB` is a string constructor. -/
theorem helper_isStr_exists (v : JVal) (h : isStrB v = true) :
    ∃ s, v = JVal.str s := by
  cases v <;> first | exact ⟨_, rfl⟩ | simp [isStrB] at h

/-- A safe final payload renders without raising. -/
theorem helper_formatFinal_ok (resp : JVal) (h : safeFinalPayload resp = true) :
    ∃ s, formatFinalResponse resp = .ok s := by
  rcases resp with _ | b | ⟨m, e⟩ | s | l | kvs
  · simp [safeFinalPayload] at h
  · simp [safeFinalPayload] at h
  · simp [safeFinalPayload] at h
  · simp [safeFinalPayload] at h
  · simp [safeFinalPayload] at h
  · unfold safeFinalPayload at h
    rw [Bool.and_eq_true, Bool.and_eq_true, Bool.and_eq_true, Bool.and_eq_true] at h
    obtain ⟨⟨⟨⟨ha, hrc⟩, hy⟩, hp⟩, hcf⟩ := h
    obtain ⟨sa, hsa⟩ := helper_isStr_exists _ ha
    obtain ⟨sr, hsr⟩ := helper_isStr_exists _ hrc
    obtain ⟨pct, hpc⟩ : ∃ pct,
        pyPercentFmt ((jLookup kvs "confidence").getD (.num 0 1)) = .ok pct := by
      rcases hcv : (jLookup kvs "confidence").getD (.num 0 1) with _ | b | ⟨m, e⟩ | s | l | o
      · rw [hcv] at hcf; simp at hcf
      · cases b
        · exact ⟨_, rfl⟩
        · exact ⟨_, rfl⟩
      · exact ⟨_, rfl⟩
      · rw [hcv] at hcf; simp at hcf
      · rw [hcv] at hcf; simp at hcf
      · rw [hcv] at hcf; simp at hcf
    apply helper_exists_of_isOk
    by_cases htr : pyTruthy ((jLookup kvs "yaml").getD .null) = true
    · have hyi : isStrB ((jLookup kvs "yaml").getD .null) = true := by
        rw [Bool.or_eq_true] at hy
        rcases hy with hy1 | hy2
        · rw [htr] at hy1; simp at hy1
        · exact hy2
      obtain ⟨ys, hys⟩ := helper_isStr_exists _ hyi
      have hts : pyTruthy (JVal.str ys) = true := by rw [← hys]; exact htr
      by_cases hptr : pyTruthy ((jLookup kvs "post_checks").getD .null) = true
      · have hpi : pyIterOkB ((jLookup kvs "post_checks").getD .null) = true := by
          rw [Bool.or_eq_true] at hp
          rcases hp with hp1 | hp2
          · rw [hptr] at hp1; simp at hp1
          · exact hp2
        obtain ⟨pcl, hpx⟩ := helper_pyIter_ok _ hpi
        by_cases hk : pyTruthy ((jLookup kvs "kubectl").getD .null) = true
        · simp only [formatFinalResponse, htr, hys, hptr, hpx, hsa, hsr, hpc, hk, if_true]
          simp [pyJoin, List.all_append, List.all_map, isStrB, hts,
            Except.isOk, Except.toBool]
        · have hk' := eq_false_of_ne_true hk
          simp only [formatFinalResponse, htr, hys, hptr, hpx, hsa, hsr, hpc, hk',
            Bool.false_eq_true, if_false, if_true]
          simp [pyJoin, List.all_append, List.all_map, isStrB, hts,
            Except.isOk, Except.toBool]
      · have hptr' := eq_false_of_ne_true hptr
        by_cases hk : pyTruthy ((jLookup kvs "kubectl").getD .null) = true
        · simp only [formatFinalResponse, htr, hys, hptr', hsa, hsr, hpc, hk,
            Bool.false_eq_true, if_false, if_true]
          simp [pyJoin, List.all_append, List.all_map, isStrB, hts,
            Except.isOk, Except.toBool]
        · have hk' := eq_false_of_ne_true hk
          simp only [formatFinalResponse, htr, hys, hptr', hsa, hsr, hpc, hk',
            Bool.false_eq_true, if_false, if_true]
          simp [pyJoin, List.all_append, List.all_map, isStrB, hts,
            Except.isOk, Except.toBool]
    · have htr' := eq_false_of_ne_true htr
      by_cases hptr : pyTruthy ((jLookup kvs "post_checks").getD .null) = true
      · have hpi : pyIterOkB ((jLookup kvs "post_checks").getD .null) = true := by
          rw [Bool.or_eq_true] at hp
          rcases hp with hp1 | hp2
          · rw [hptr] at hp1; simp at hp1
          · exact hp2
        obtain ⟨pcl, hpx⟩ := helper_pyIter_ok _ hpi
        by_cases hk : pyTruthy ((jLookup kvs "kubectl").getD .null) = true
        · simp only [formatFinalResponse, htr', hptr, hpx, hsa, hsr, hpc, hk,
            Bool.false_eq_true, if_false, if_true]
          simp [pyJoin, List.all_append, List.all_map, isStrB,
            Except.isOk, Except.toBool]
        · have hk' := eq_false_of_ne_true hk
          simp only [formatFinalResponse, htr', hptr, hpx, hsa, hsr, hpc, hk',
            Bool.false_eq_true, if_false, if_true]
          simp [pyJoin, List.all_append, List.all_map, isStrB,
            Except.isOk, Except.toBool]
      · have hptr' := eq_false_of_ne_true hptr
        by_cases hk : pyTruthy ((jLookup kvs "kubectl").getD .null) = true
        · simp only [formatFinalResponse, htr', hptr', hsa, hsr, hpc, hk,
            Bool.false_eq_true, if_false, if_true]
          simp [pyJoin, List.all_append, List.all_map, isStrB,
            Except.isOk, Except.toBool]
        · have hk' := eq_false_of_ne_true hk
          simp only [formatFinalResponse, htr', hptr', hsa, hsr, hpc, hk',
            Bool.false_eq_true, if_false, if_true]
          simp [pyJoin, List.all_append, List.all_map, isStrB,
            Except.isOk, Except.toBool]

/-- On a well-shaped parsed reply the classification never escapes with an
exception: it either returns a terminal string or continues the loop. -/
theorem helper_stepAct_no_escape (reg : Registry) (v : JVal)
    (h : goodParsed v = true) :
    (∃ s, stepAct reg v = .done s) ∨ (∃ rec d, stepAct reg v = .next rec d) := by
  rcases v with _ | b | ⟨m, e⟩ | s | l | kvs
  · simp [goodParsed] at h
  · simp [goodParsed] at h
  · simp [goodParsed] at h
  · simp [goodParsed] at h
  · simp [goodParsed] at h
  · rcases htc : jLookup kvs "tool_call" with _ | ti
    · rcases hd : jLookup kvs "data_response" with _ | d
      · rcases hf : jLookup kvs "final_response" with _ | f
        · exact Or.inl ⟨_, by simp [stepAct, pyContains, pySubscript, htc, hd, hf]; rfl⟩
        · have hsafe : safeFinalPayload f = true := by
            simpa [goodParsed, htc, hd, hf] using h
          obtain ⟨s, hff⟩ := helper_formatFinal_ok f hsafe
          exact Or.inl ⟨s, by simp [stepAct, pyContains, pySubscript, htc, hd, hf, hff]⟩
      · have hsafe : safeDataPayload d = true := by
          simpa [goodParsed, htc, hd] using h
        obtain ⟨s, hfd⟩ := helper_formatData_ok d hsafe
        exact Or.inl ⟨s, by simp [stepAct, pyContains, pySubscript, htc, hd, hfd]⟩
    · have hsafe : safeToolPayload ti = true := by
        simpa [goodParsed, htc] using h
      rcases ti with _ | b | ⟨m, e⟩ | s | l | tikvs
      · simp [safeToolPayload] at hsafe
      · simp [safeToolPayload] at hsafe
      · simp [safeToolPayload] at hsafe
      · simp [safeToolPayload] at hsafe
      · simp [safeToolPayload] at hsafe
      · rcases hname : (jLookup tikvs "name").getD JVal.null with _ | b | ⟨m, e⟩ | t | l | o
        · exact Or.inl ⟨_, by simp [stepAct, pyContains, pySubscript, pyGet, htc, hname]; rfl⟩
        · exact Or.inl ⟨_, by simp [stepAct, pyContains, pySubscript, pyGet, htc, hname]; rfl⟩
        · exact Or.inl ⟨_, by simp [stepAct, pyContains, pySubscript, pyGet, htc, hname]; rfl⟩
        · by_cases hreg : t ∈ listToolKeys reg
          · rcases hinv : invokeLocal reg t ((jLookup tikvs "args").getD (.obj [])) with ev | rv
            · exact Or.inr ⟨_, _, by
                simp [stepAct, pyContains, pySubscript, pyGet, htc, hname, hreg, hinv]
                exact ⟨rfl, rfl⟩⟩
            · exact Or.inr ⟨_, _, by
                simp [stepAct, pyContains, pySubscript, pyGet, htc, hname, hreg, hinv]
                exact ⟨rfl, rfl⟩⟩
          · exact Or.inl ⟨_, by
              simp [stepAct, pyContains, pySubscript, pyGet, htc, hname, hreg]
              rfl⟩
        · simp [safeToolPayload, hname] at hsafe
        · simp [safeToolPayload, hname] at hsafe

/-- Safety induction over the loop: with every successfully parsed reply
well shaped, every run returns a string. -/
theorem helper_c9_loop (reg : Registry) (backend : Backend) (q : String)
    (N : Nat)
    (H : ∀ k um r v, backend k um = .ok r → jsonLoadsS (cleanS r) = .ok v →
      goodParsed v = true) :
    ∀ fuel k ctx um, ∃ s,
      (processLoop reg backend q N fuel k ctx um).result = .ok s := by
  intro fuel
  induction fuel with
  | zero => intro k ctx um; exact ⟨_, rfl⟩
  | succ n ih =>
      intro k ctx um
      rcases hb : backend k um with be | r
      · exact ⟨_, by simp [processLoop, hb]; rfl⟩
      · rcases hj : jsonLoadsS (cleanS r) with je | v
        · exact ⟨_, by simp [processLoop, hb, hj]; rfl⟩
        · rcases helper_stepAct_no_escape reg v (H k um r v hb hj) with ⟨s, hs⟩ | ⟨rec, d, hs⟩
          · exact ⟨s, by simp [processLoop, hb, hj, hs]⟩
          · obtain ⟨s', hs'⟩ := ih (k + 1) (ctx ++ [rec]) (contextUserMsg q (ctx ++ [rec]))
            exact ⟨s', by simp [processLoop, hb, hj, hs, hs']⟩

/-- C9 amended: `process_input` returns a string (no exception escapes)
*provided* every backend reply that decodes at all decodes to a well-shaped
JSON object (`goodParsed`): the parse is an object, a `tool_call` payload is
an object with a hashable name, and `data_response` / `final_response`
payloads have the types the renderers expect.  Outside that envelope the
membership test, attribute access, iteration, format or join raise uncaught
exceptions (see the counterexample). -/
theorem c9_no_escape (reg : Registry) (backend : Backend) (q : String)
    (N : Nat)
    (H : ∀ k um r v, backend k um = .ok r → jsonLoadsS (cleanS r) = .ok v →
      goodParsed v = true) :
    ∃ s, (processInput reg backend q N).result = .ok s := by
  unfold processInput
  exact helper_c9_loop reg backend q N H N 0 [] (initialUserMsg q)

/-- C9 witness: a backend that always answers with a well-formed
`final_response` satisfies the shape condition, and the run returns a
string. -/
theorem c9_witness :
    ∃ s, (processInput []
      (fun _ _ => .ok "\x7b\"final_response\": \x7b\"analysis\": \"ok\", \"recommendation\": \"r\", \"confidence\": 0.85\x7d\x7d")
      "q" 6).result = .ok s :=
  c9_no_escape []
    (fun _ _ => .ok "\x7b\"final_response\": \x7b\"analysis\": \"ok\", \"recommendation\": \"r\", \"confidence\": 0.85\x7d\x7d")
    "q" 6
    (fun k um r v hb hj => by
      cases hb
      have h0 : jsonLoadsS (cleanS "\x7b\"final_response\": \x7b\"analysis\": \"ok\", \"recommendation\": \"r\", \"confidence\": 0.85\x7d\x7d") =
          .ok (.obj [("final_response",
            .obj [("analysis", .str "ok"), ("recommendation", .str "r"),
                  ("confidence", .num 85 2)])]) := rfl
      rw [h0] at hj
      cases hj
      decide)
